import Mathlib

/-!
Shallow embedding of `dataSourceToInitConfig` from
`pkg/provider/kubeadm_init.go` of terraform-provider-kubeadm, together with
the Go standard-library routines it calls (`regexp.MatchString` on the
concrete DNS pattern, `net.SplitHostPort`, `strconv.Atoi`).

Go maps are reference values.  The field `NodeRegistration.KubeletExtraArgs`
of the freshly allocated configuration record aliases the package-level map
`common.DefKubeletSettings` (line 43 of kubeadm_init.go), and writes through
that alias mutate the package-level map.  We make this explicit: the kubelet
extra-args field is either `.global` (still aliasing the package-level map,
which is threaded through the derivation as mutable state) or `.owned m`
(rebound to a map coming from the resource data, line 146).

The `common` package (default tables, `AddressWithPort`,
`NewBootstrapToken`) is not part of the provided sources; its constant
tables are parameters (`Globals`) and the token constructor is a function
parameter, so the theorems hold for every instantiation.
-/

set_option maxRecDepth 10000

namespace KubeadmInit

/-- String-keyed map with Go-map update semantics, as an association list. -/
abbrev Smap := List (String × String)

/-- Go map read `m[k]` (`ok` form): the value, if the key is present. -/
def Smap.get? : Smap → String → Option String
  | [], _ => none
  | (k', v) :: rest, k => if k' = k then some v else Smap.get? rest k

/-- Go map write `m[k] = v`: overwrite in place, or append a new binding. -/
def Smap.set : Smap → String → String → Smap
  | [], k, v => [(k, v)]
  | (k', v') :: rest, k, v =>
      if k' = k then (k', v) :: rest else (k', v') :: Smap.set rest k v

/-- Errors produced by the derivation (taxonomy of spec section 7). -/
inductive GoError where
  /-- `net.SplitHostPort` address error (`&AddrError{Err: why, Addr: addr}`). -/
  | addrError (addr why : String)
  /-- `strconv.Atoi` parse error on the given string. -/
  | atoiError (s : String)
  /-- Line 91: invalid DNS name. -/
  | invalidDNSName (domain : String)
  /-- Line 131: unknown runtime engine. -/
  | unknownRuntimeEngine (engine : String)
  /-- Error propagated out of `common.NewBootstrapToken`. -/
  | tokenError (msg : String)
deriving DecidableEq, Repr

/-! ## Go regular expressions: the concrete DNS-1123 pattern

Line 89 compiles `[a-z0-9]([-a-z0-9]*[a-z0-9])?(\.[a-z0-9]([-a-z0-9]*[a-z0-9])?)*`
and line 90 calls `r.MatchString(dnsDomain)`.  Go's `MatchString` reports
whether the string CONTAINS any match of the pattern (it is not anchored).
We embed a standard regular-expression matcher (Brzozowski derivatives) and
define `MatchString` as: some contiguous substring is in the language. -/

/-- Regular expressions over characters (character classes as predicates). -/
inductive Rx where
  | emp : Rx
  | eps : Rx
  | cls (p : Char → Bool) : Rx
  | cat (a b : Rx) : Rx
  | alt (a b : Rx) : Rx
  | star (a : Rx) : Rx

/-- Does the regular expression accept the empty string? -/
def Rx.nullable : Rx → Bool
  | .emp => false
  | .eps => true
  | .cls _ => false
  | .cat a b => a.nullable && b.nullable
  | .alt a b => a.nullable || b.nullable
  | .star _ => true

/-- Brzozowski derivative with respect to one character. -/
def Rx.deriv : Rx → Char → Rx
  | .emp, _ => .emp
  | .eps, _ => .emp
  | .cls p, c => if p c then .eps else .emp
  | .cat a b, c =>
      if a.nullable then .alt (.cat (a.deriv c) b) (b.deriv c)
      else .cat (a.deriv c) b
  | .alt a b, c => .alt (a.deriv c) (b.deriv c)
  | .star a, c => .cat (a.deriv c) (.star a)

/-- Whole-word acceptance of a character list. -/
def Rx.matchesList (r : Rx) (l : List Char) : Bool :=
  (l.foldl Rx.deriv r).nullable

/-- All suffixes of a character list (longest first), including the empty one. -/
def listTails : List Char → List (List Char)
  | [] => [[]]
  | c :: cs => (c :: cs) :: listTails cs

/-- All prefixes of a character list (shortest first), including the empty one. -/
def listInits : List Char → List (List Char)
  | [] => [[]]
  | c :: cs => [] :: (listInits cs).map (c :: ·)

/-- Go `(*Regexp).MatchString`: the string contains some match, i.e. some
contiguous substring is accepted by the pattern. -/
def goMatchString (r : Rx) (s : String) : Bool :=
  (listTails s.toList).any (fun t => (listInits t).any (fun p => r.matchesList p))

/-- Character class `[a-z0-9]`. -/
def isLowerAlnum (c : Char) : Bool :=
  ('a' ≤ c && c ≤ 'z') || ('0' ≤ c && c ≤ '9')

/-- Character class `[-a-z0-9]`. -/
def isLabelChar (c : Char) : Bool :=
  c == '-' || isLowerAlnum c

/-- The sub-pattern `[a-z0-9]([-a-z0-9]*[a-z0-9])?`. -/
def dnsLabelRx : Rx :=
  .cat (.cls isLowerAlnum)
    (.alt .eps (.cat (.star (.cls isLabelChar)) (.cls isLowerAlnum)))

/-- Line 89: the compiled pattern
`[a-z0-9]([-a-z0-9]*[a-z0-9])?(\.[a-z0-9]([-a-z0-9]*[a-z0-9])?)*`. -/
def dnsDomainRx : Rx :=
  .cat dnsLabelRx (.star (.cat (.cls (fun c => c == '.')) dnsLabelRx))

/-! ## Go standard library: `net.SplitHostPort`, `strconv.Atoi` -/

/-- Index of the last occurrence of a character, as in Go's `last`. -/
def lastIndexOfChar (l : List Char) (c : Char) : Option Nat :=
  match l with
  | [] => none
  | x :: xs =>
      match lastIndexOfChar xs c with
      | some i => some (i + 1)
      | none => if x = c then some 0 else none

/-- Index of the first occurrence of a character. -/
def indexOfChar (l : List Char) (c : Char) : Option Nat :=
  match l with
  | [] => none
  | x :: xs =>
      if x = c then some 0 else
        match indexOfChar xs c with
        | some i => some (i + 1)
        | none => none

/-- Does the list contain the character? -/
def containsChar (l : List Char) (c : Char) : Bool :=
  l.any (fun x => x == c)

/-- `net.SplitHostPort`: split `host:port` (bracketed IPv6 hosts allowed),
following the structure of the Go source. -/
def splitHostPort (hostport : String) : Except GoError (String × String) :=
  let l := hostport.toList
  match lastIndexOfChar l ':' with
  | none => .error (.addrError hostport "missing port in address")
  | some i =>
      let core : Except GoError (List Char × Nat × Nat) :=
        if l.head? = some '[' then
          match indexOfChar l ']' with
          | none => .error (.addrError hostport "missing ']' in address")
          | some e =>
              if e + 1 = l.length then
                .error (.addrError hostport "missing port in address")
              else if e + 1 = i then
                .ok ((l.drop 1).take (e - 1), 1, e + 1)
              else if l.get? (e + 1) = some ':' then
                .error (.addrError hostport "too many colons in address")
              else
                .error (.addrError hostport "missing port in address")
        else
          let host := l.take i
          if containsChar host ':' then
            .error (.addrError hostport "too many colons in address")
          else
            .ok (host, 0, 0)
      match core with
      | .error e => .error e
      | .ok (host, j, k) =>
          if containsChar (l.drop j) '[' then
            .error (.addrError hostport "unexpected left bracket in address")
          else if containsChar (l.drop k) ']' then
            .error (.addrError hostport "unexpected right bracket in address")
          else
            .ok (⟨host⟩, ⟨l.drop (i + 1)⟩)

/-- Is the character a decimal digit? -/
def isDigitChar (c : Char) : Bool := '0' ≤ c && c ≤ '9'

/-- Numeric value of a list of decimal digits. -/
def digitsToNat (l : List Char) : Nat :=
  l.foldl (fun acc d => acc * 10 + (d.toNat - '0'.toNat)) 0

/-- `strconv.Atoi`: optional sign, then a nonempty run of decimal digits;
anything else is a syntax error, and 64-bit overflow is a range error. -/
def goAtoi (s : String) : Except GoError Int :=
  let chars := s.toList
  let signed : Bool × List Char :=
    match chars with
    | '-' :: rest => (true, rest)
    | '+' :: rest => (false, rest)
    | other => (false, other)
  match signed with
  | (neg, digits) =>
      if digits = [] then .error (.atoiError s)
      else if digits.all isDigitChar then
        let v : Int := if neg then -(digitsToNat digits : Int) else (digitsToNat digits : Int)
        if v < -(2 ^ 63) ∨ v > 2 ^ 63 - 1 then .error (.atoiError s)
        else .ok v
      else .error (.atoiError s)

/-- Go `int32(i)`: truncate an integer to 32 bits (two's complement). -/
def int32ofInt (v : Int) : Int :=
  (v + 2 ^ 31).emod (2 ^ 32) - 2 ^ 31

/-! ## The kubeadm target record (`k8s.io/kubernetes/cmd/kubeadm/app/apis/kubeadm`)

Only the fields this function reads or writes are modelled.  Two Go field
names are renamed because of Lean restrictions: `Etcd.Local` is `localE`
and `Etcd.External` is `ext`. -/

/-- `kubeadmapi.ImageMeta`. -/
structure ImageMeta where
  imageRepository : String := ""
  imageTag : String := ""
deriving DecidableEq, Repr

/-- `kubeadmapi.LocalEtcd` (field `Local` of `Etcd`). -/
structure LocalEtcd where
  imageMeta : ImageMeta := {}
deriving DecidableEq, Repr

/-- The endpoints-bearing record pointed to by field `External` of `Etcd`. -/
structure ExtEtcd where
  endpoints : List String := []
deriving DecidableEq, Repr

/-- `kubeadmapi.Etcd`: two nullable pointer fields (`Local`, `External`). -/
structure Etcd where
  localE : Option LocalEtcd := none
  ext : Option ExtEtcd := none
deriving DecidableEq, Repr

/-- `kubeadmapi.APIServer` (CertSANs plus the extra-args of its embedded
`ControlPlaneComponent`; `ExtraArgs` is a nilable Go map). -/
structure APIServer where
  certSANs : List String := []
  extraArgs : Option Smap := none
deriving DecidableEq, Repr

/-- `kubeadmapi.ControlPlaneComponent` (controller-manager / scheduler). -/
structure ControlPlaneComponent where
  extraArgs : Option Smap := none
deriving DecidableEq, Repr

/-- `kubeadmapi.Networking`. -/
structure Networking where
  serviceSubnet : String := ""
  podSubnet : String := ""
  dnsDomain : String := ""
deriving DecidableEq, Repr

/-- `kubeadmapi.ClusterConfiguration` (the fields used here). -/
structure ClusterConfiguration where
  apiServer : APIServer := {}
  controllerManager : ControlPlaneComponent := {}
  scheduler : ControlPlaneComponent := {}
  networking : Networking := {}
  imageRepository : String := ""
  etcd : Etcd := {}
  kubernetesVersion : String := ""
  controlPlaneEndpoint : String := ""
deriving DecidableEq, Repr

/-- `kubeadmapi.APIEndpoint` (`LocalAPIEndpoint`); `BindPort` is an `int32`. -/
structure APIEndpoint where
  advertiseAddress : String := ""
  bindPort : Int := 0
deriving DecidableEq, Repr

/-- The kubelet extra-args Go map value: either still the alias of the
package-level `common.DefKubeletSettings` map (line 43), or a map taken from
the resource data (line 146). -/
inductive KRef where
  | global : KRef
  | owned (m : Smap) : KRef
deriving DecidableEq, Repr

/-- The map a `KRef` denotes, given the current package-level map. -/
def KRef.resolve (st : Smap) : KRef → Smap
  | .global => st
  | .owned m => m

/-- A Go map write through the reference: writing through the alias mutates
the package-level map (returned updated); writing to an owned map is local. -/
def KRef.write (st : Smap) (r : KRef) (k v : String) : Smap × KRef :=
  match r with
  | .global => (st.set k v, .global)
  | .owned m => (st, .owned (m.set k v))

/-- `kubeadmapi.NodeRegistrationOptions`. -/
structure NodeRegistrationOptions where
  kubeletExtraArgs : KRef := .global
  criSocket : String := ""
deriving DecidableEq, Repr

/-- `kubeadmapi.BootstrapToken` (expiry modelled as an optional instant;
only presence or absence of the expiry matters to the claims). -/
structure BootstrapToken where
  token : String := ""
  expires : Option Nat := none
deriving DecidableEq, Repr

/-- `kubeadmapi.InitConfiguration` (the fields used here). -/
structure InitConfiguration where
  clusterConfiguration : ClusterConfiguration := {}
  localAPIEndpoint : APIEndpoint := {}
  nodeRegistration : NodeRegistrationOptions := {}
  bootstrapTokens : List BootstrapToken := []
deriving DecidableEq, Repr

/-- A Go write `initConfig.NodeRegistration.KubeletExtraArgs[k] = v`: it
goes through the possibly-aliased kubelet extra-args map, so it may mutate
the package-level map `st`. -/
def kubeletWrite (c : InitConfiguration) (st : Smap) (k v : String) :
    InitConfiguration × Smap :=
  ({ c with nodeRegistration :=
      { c.nodeRegistration with kubeletExtraArgs :=
          (KRef.write st c.nodeRegistration.kubeletExtraArgs k v).2 } },
   (KRef.write st c.nodeRegistration.kubeletExtraArgs k v).1)

/-! ## The source tree and the `common` package parameters -/

/-- The Terraform `*schema.ResourceData`: a hierarchical optional-value
store keyed by dotted/indexed paths (spec section 6), with typed accessors
for strings, string lists and string maps, plus presence of block paths
such as `api.0`. -/
structure ResourceData where
  strings : String → Option String
  lists : String → Option (List String)
  maps : String → Option Smap
  blocks : String → Bool

/-- `d.GetOk(path)` for a string attribute: `ok` is false when the value is
absent or is the zero value `""`. -/
def getOkS (d : ResourceData) (p : String) : Option String :=
  match d.strings p with
  | some s => if s = "" then none else some s
  | none => none

/-- `d.GetOk(path)` for a list attribute: `ok` is false for an absent or
empty list. -/
def getOkL (d : ResourceData) (p : String) : Option (List String) :=
  match d.lists p with
  | some l => if l = [] then none else some l
  | none => none

/-- `d.GetOk(path)` for a map attribute: `ok` is false for an absent or
empty map. -/
def getOkM (d : ResourceData) (p : String) : Option Smap :=
  match d.maps p with
  | some m => if m = [] then none else some m
  | none => none

/-- `d.Get(path).(string)`: the value, or the zero value `""` when absent. -/
def getS (d : ResourceData) (p : String) : String :=
  (d.strings p).getD ""

/-- The constant tables of the `common` package read by the derivation:
`DefKubeletSettings` (the package-level kubelet-settings map),
`DefCriSocket` (engine name to control-socket path), `DefAPIServerPort`
and `DefResolvUpstreamConf`. -/
structure Globals where
  defKubeletSettings : Smap
  defCriSocket : Smap
  defAPIServerPort : Nat
  defResolvUpstreamConf : String

/-- Modelled from the spec: `common.AddressWithPort` (pkg/common is not in
the provided sources) combines an address with the fixed default API-server
port when the address does not already specify a port (spec section 4.1). -/
def addressWithPort (addr : String) (port : Nat) : String :=
  if containsChar addr.toList ':' then addr else addr ++ ":" ++ toString port

/-! ## The derivation steps (lines 35-202 of kubeadm_init.go) -/

/-- Lines 35-45: the freshly allocated `InitConfiguration` literal.  Its
kubelet extra-args field aliases the package-level defaults map. -/
def baseInitConfig : InitConfiguration :=
  { clusterConfiguration := { apiServer := { certSANs := [] } }
    nodeRegistration := { kubeletExtraArgs := .global } }

/-- Lines 48-50: the external endpoint, combined with the default port. -/
def apiExternalPart (g : Globals) (d : ResourceData) (c : InitConfiguration) :
    InitConfiguration :=
  match getOkS d "api.0.external" with
  | some ext =>
      { c with clusterConfiguration :=
          { c.clusterConfiguration with
              controlPlaneEndpoint := addressWithPort ext g.defAPIServerPort } }
  | none => c

/-- Appends one name to the certificate alternate-name set. -/
def appendCertSAN (c : InitConfiguration) (ns : List String) : InitConfiguration :=
  { c with clusterConfiguration :=
      { c.clusterConfiguration with apiServer :=
          { c.clusterConfiguration.apiServer with certSANs :=
              c.clusterConfiguration.apiServer.certSANs ++ ns } } }

/-- Lines 59-65: parse the port substring, when non-empty, into the bind
port (Go `int32` conversion). -/
def bindPortPart (port : String) (c : InitConfiguration) :
    Except GoError InitConfiguration :=
  if port ≠ "" then
    match goAtoi port with
    | .error e => .error e
    | .ok i =>
        .ok { c with localAPIEndpoint :=
            { c.localAPIEndpoint with bindPort := int32ofInt i } }
  else .ok c

/-- Lines 52-68: the internal endpoint (split, advertise address, bind
port, unconditional certificate-name append of the host). -/
def apiInternalPart (d : ResourceData) (c : InitConfiguration) :
    Except GoError InitConfiguration :=
  match getOkS d "api.0.internal" with
  | some internalAddr =>
      match splitHostPort internalAddr with
      | .error e => .error e
      | .ok (host, port) =>
          match bindPortPart port
              { c with localAPIEndpoint :=
                  { c.localAPIEndpoint with advertiseAddress := host } } with
          | .error e => .error e
          | .ok c4 => .ok (appendCertSAN c4 [host])
  | none => .ok c

/-- Lines 70-72: the alternate-name list append. -/
def apiAltNamesPart (d : ResourceData) (c : InitConfiguration) :
    InitConfiguration :=
  match getOkL d "api.0.alt_names" with
  | some ns => appendCertSAN c ns
  | none => c

/-- Lines 47-73: the `api.0` block (external endpoint, internal host:port,
alternate names). -/
def apiStep (g : Globals) (d : ResourceData) (c : InitConfiguration) :
    Except GoError InitConfiguration :=
  if d.blocks "api.0" then
    match apiInternalPart d (apiExternalPart g d c) with
    | .error e => .error e
    | .ok c5 => .ok (apiAltNamesPart d c5)
  else .ok c

/-- Lines 97-102: the DNS upstream list; mere non-emptiness writes the
`resolv-conf` kubelet extra-arg (through the possibly-aliased map). -/
def upstreamPart (g : Globals) (d : ResourceData) (c : InitConfiguration)
    (st : Smap) : InitConfiguration × Smap :=
  match getOkL d "network.0.dns.0.upstream" with
  | some dnsUp =>
      if dnsUp.length > 0 then
        kubeletWrite c st "resolv-conf" g.defResolvUpstreamConf
      else (c, st)
  | none => (c, st)

/-- Lines 76-78: the pod CIDR, copied verbatim when present. -/
def podsPart (d : ResourceData) (c : InitConfiguration) : InitConfiguration :=
  match getOkS d "network.0.pods" with
  | some p =>
      { c with clusterConfiguration :=
          { c.clusterConfiguration with networking :=
              { c.clusterConfiguration.networking with podSubnet := p } } }
  | none => c

/-- Lines 79-81: the service CIDR, copied verbatim when present. -/
def servicesPart (d : ResourceData) (c : InitConfiguration) : InitConfiguration :=
  match getOkS d "network.0.services" with
  | some s =>
      { c with clusterConfiguration :=
          { c.clusterConfiguration with networking :=
              { c.clusterConfiguration.networking with serviceSubnet := s } } }
  | none => c

/-- Lines 83-103: the `network.0.dns.0` block (domain regex check then the
upstream presence-trigger). -/
def dnsPart (g : Globals) (d : ResourceData) (c : InitConfiguration)
    (st : Smap) : Except GoError (InitConfiguration × Smap) :=
  if d.blocks "network.0.dns.0" then
    match getOkS d "network.0.dns.0.domain" with
    | some dnsDomain =>
        if goMatchString dnsDomainRx dnsDomain then
          .ok (upstreamPart g d
            { c with clusterConfiguration :=
                { c.clusterConfiguration with networking :=
                    { c.clusterConfiguration.networking with dnsDomain := dnsDomain } } }
            st)
        else .error (.invalidDNSName dnsDomain)
    | none => .ok (upstreamPart g d c st)
  else .ok (c, st)

/-- Lines 75-104: the `network.0` block (pod/service CIDRs, DNS domain with
its regex check, DNS upstream). -/
def networkStep (g : Globals) (d : ResourceData) (c : InitConfiguration)
    (st : Smap) : Except GoError (InitConfiguration × Smap) :=
  if d.blocks "network.0" then
    dnsPart g d (servicesPart d (podsPart d c)) st
  else .ok (c, st)

/-- Lines 106-122: the `images.0` block.  `kube_repo` is read with plain
`Get` (zero value on absence) and written unconditionally; the embedded
etcd image override replaces the whole `Etcd` struct when either of the two
values is non-empty. -/
def imagesStep (d : ResourceData) (c : InitConfiguration) : InitConfiguration :=
  if d.blocks "images.0" then
    let c1 := { c with clusterConfiguration :=
        { c.clusterConfiguration with imageRepository := getS d "images.0.kube_repo" } }
    if getS d "images.0.etcd_version" ≠ "" ∨ getS d "images.0.etcd_repo" ≠ "" then
      { c1 with clusterConfiguration :=
          { c1.clusterConfiguration with etcd :=
              { localE := some { imageMeta :=
                  { imageRepository := getS d "images.0.etcd_repo"
                    imageTag := getS d "images.0.etcd_version" } }
                ext := none } } }
    else c1
  else c

/-- Lines 125-133: engine-name lookup in `common.DefCriSocket`; on success
the socket is stored and the `container-runtime-endpoint` kubelet extra-arg
is written (through the possibly-aliased map). -/
def engineStep (g : Globals) (d : ResourceData) (c : InitConfiguration)
    (st : Smap) : Except GoError (InitConfiguration × Smap) :=
  match getOkS d "runtime.0.engine" with
  | some eng =>
      match g.defCriSocket.get? eng with
      | some socket =>
          let w := kubeletWrite c st "container-runtime-endpoint" ("unix://" ++ socket)
          .ok ({ w.1 with nodeRegistration :=
              { w.1.nodeRegistration with criSocket := socket } }, w.2)
      | none => .error (.unknownRuntimeEngine eng)
  | none => .ok (c, st)

/-- Lines 136-138: wholesale replacement of the API-server extra-args. -/
def apiArgsPart (d : ResourceData) (c : InitConfiguration) : InitConfiguration :=
  match getOkM d "runtime.0.extra_args.0.api_server" with
  | some args =>
      { c with clusterConfiguration :=
          { c.clusterConfiguration with apiServer :=
              { c.clusterConfiguration.apiServer with extraArgs := some args } } }
  | none => c

/-- Lines 139-141: wholesale replacement of the controller-manager
extra-args. -/
def cmArgsPart (d : ResourceData) (c : InitConfiguration) : InitConfiguration :=
  match getOkM d "runtime.0.extra_args.0.controller_manager" with
  | some args =>
      { c with clusterConfiguration :=
          { c.clusterConfiguration with controllerManager := { extraArgs := some args } } }
  | none => c

/-- Lines 142-144: wholesale replacement of the scheduler extra-args. -/
def schedArgsPart (d : ResourceData) (c : InitConfiguration) : InitConfiguration :=
  match getOkM d "runtime.0.extra_args.0.scheduler" with
  | some args =>
      { c with clusterConfiguration :=
          { c.clusterConfiguration with scheduler := { extraArgs := some args } } }
  | none => c

/-- Lines 145-147: wholesale replacement of the kubelet extra-args (this
rebinds the field away from the package-level alias). -/
def kubeletArgsPart (d : ResourceData) (c : InitConfiguration) : InitConfiguration :=
  match getOkM d "runtime.0.extra_args.0.kubelet" with
  | some args =>
      { c with nodeRegistration :=
          { c.nodeRegistration with kubeletExtraArgs := .owned args } }
  | none => c

/-- Lines 135-148: each of the four per-component extra-args sub-maps, when
present, replaces the corresponding target map wholesale (the kubelet one
rebinds the field away from the package-level alias). -/
def extraArgsStep (d : ResourceData) (c : InitConfiguration) : InitConfiguration :=
  if d.blocks "runtime.0.extra_args.0" then
    kubeletArgsPart d (schedArgsPart d (cmArgsPart d (apiArgsPart d c)))
  else c

/-- Lines 124-149: the `runtime.0` block (engine lookup then extra-args). -/
def runtimeStep (g : Globals) (d : ResourceData) (c : InitConfiguration)
    (st : Smap) : Except GoError (InitConfiguration × Smap) :=
  if d.blocks "runtime.0" then
    match engineStep g d c st with
    | .error e => .error e
    | .ok (c1, st1) => .ok (extraArgsStep d c1, st1)
  else .ok (c, st)

/-- Lines 154-169: the cloud-provider fan-out.  A present non-empty
provider name writes `cloud-provider = external` into the kubelet,
API-server and controller-manager extra-args maps; the latter two are
allocated when nil (the kubelet map is never nil: it is either the
package-level map or a map obtained from the resource data). -/
def cloudStep (d : ResourceData) (c : InitConfiguration) (st : Smap) :
    InitConfiguration × Smap :=
  match getOkS d "cloud.0.provider" with
  | some prov =>
      if prov.length > 0 then
        let w := kubeletWrite c st "cloud-provider" "external"
        let apiArgs : Option Smap :=
          some ((c.clusterConfiguration.apiServer.extraArgs.getD []).set
            "cloud-provider" "external")
        let cmArgs : Option Smap :=
          some ((c.clusterConfiguration.controllerManager.extraArgs.getD []).set
            "cloud-provider" "external")
        ({ w.1 with clusterConfiguration :=
            { w.1.clusterConfiguration with
                apiServer := { w.1.clusterConfiguration.apiServer with extraArgs := apiArgs }
                controllerManager := { extraArgs := cmArgs } } }, w.2)
      else (c, st)
  | none => (c, st)

/-- Lines 172-174: the CNI binaries directory. -/
def cniBinPart (d : ResourceData) (c : InitConfiguration) (st : Smap) :
    InitConfiguration × Smap :=
  match getOkS d "cni.0.bin_dir" with
  | some arg => kubeletWrite c st "cni-bin-dir" arg
  | none => (c, st)

/-- Lines 175-177: the CNI configuration directory. -/
def cniConfPart (d : ResourceData) (c : InitConfiguration) (st : Smap) :
    InitConfiguration × Smap :=
  match getOkS d "cni.0.conf_dir" with
  | some arg => kubeletWrite c st "cni-conf-dir" arg
  | none => (c, st)

/-- Lines 171-178: the `cni.0` block; both writes go through the
possibly-aliased kubelet extra-args map. -/
def cniStep (d : ResourceData) (c : InitConfiguration) (st : Smap) :
    InitConfiguration × Smap :=
  if d.blocks "cni.0" then
    cniConfPart d (cniBinPart d c st).1 (cniBinPart d c st).2
  else (c, st)

/-- Lines 180-182: the version string, written only when non-empty. -/
def versionStep (d : ResourceData) (c : InitConfiguration) : InitConfiguration :=
  match getOkS d "version" with
  | some v =>
      if v.length > 0 then
        { c with clusterConfiguration :=
            { c.clusterConfiguration with kubernetesVersion := v } }
      else c
  | none => c

/-- Lines 184-191: the `etcd.0` block; a present endpoint list selects the
`External` pointer (allocated when nil) and stores the list. -/
def etcdStep (d : ResourceData) (c : InitConfiguration) : InitConfiguration :=
  if d.blocks "etcd.0" then
    match getOkL d "etcd.0.endpoints" with
    | some eps =>
        let extRec : ExtEtcd :=
          match c.clusterConfiguration.etcd.ext with
          | none => { endpoints := eps }
          | some x => { x with endpoints := eps }
        { c with clusterConfiguration :=
            { c.clusterConfiguration with etcd :=
                { c.clusterConfiguration.etcd with ext := some extRec } } }
    | none => c
  else c

/-- Lines 193-200: a non-empty token is turned into a bootstrap credential
by `common.NewBootstrapToken` (a parameter here), its expiry is
unconditionally cleared, and it is stored as a one-element list. -/
def tokenStep (nbt : String → Except GoError BootstrapToken) (token : String)
    (c : InitConfiguration) : Except GoError InitConfiguration :=
  if token.length > 0 then
    match nbt token with
    | .error e => .error e
    | .ok t => .ok { c with bootstrapTokens := [{ t with expires := none }] }
  else .ok c

/-- Lines 35-104: base record, `api.0` and `network.0`. -/
def pipe2 (g : Globals) (d : ResourceData) :
    Except GoError (InitConfiguration × Smap) :=
  match apiStep g d baseInitConfig with
  | .error e => .error e
  | .ok c1 => networkStep g d c1 g.defKubeletSettings

/-- Lines 35-149: everything up to and including the `runtime.0` block. -/
def pipe4 (g : Globals) (d : ResourceData) :
    Except GoError (InitConfiguration × Smap) :=
  match pipe2 g d with
  | .error e => .error e
  | .ok (c2, st2) => runtimeStep g d (imagesStep d c2) st2

/-- Lines 35-191: everything except the bootstrap-token tail. -/
def prePipeline (g : Globals) (d : ResourceData) :
    Except GoError (InitConfiguration × Smap) :=
  match pipe4 g d with
  | .error e => .error e
  | .ok (c4, st4) =>
      let p5 := cloudStep d c4 st4
      let p6 := cniStep d p5.1 p5.2
      .ok (etcdStep d (versionStep d p6.1), p6.2)

/-- `dataSourceToInitConfig` (lines 32-203): the whole derivation.  The
result carries the final state of the package-level
`common.DefKubeletSettings` map alongside the configuration record. -/
def dataSourceToInitConfig (g : Globals)
    (nbt : String → Except GoError BootstrapToken) (d : ResourceData)
    (token : String) : Except GoError (InitConfiguration × Smap) :=
  match prePipeline g d with
  | .error e => .error e
  | .ok (c8, st) =>
      match tokenStep nbt token c8 with
      | .error e => .error e
      | .ok c9 => .ok (c9, st)

/-! ## Observation helpers -/

/-- The success value of a derivation result, if any. -/
def okVal? {α : Type} : Except GoError α → Option α
  | .ok a => some a
  | .error _ => none

/-- The error of a derivation result, if any. -/
def errVal? {α : Type} : Except GoError α → Option GoError
  | .ok _ => none
  | .error e => some e

/-- Go lookup in a nilable map: a read from a nil map yields the zero value
(no entry). -/
def olook (o : Option Smap) (k : String) : Option String :=
  match o with
  | none => none
  | some m => m.get? k

/-! ## Concrete fixtures used by witnesses and counterexamples -/

/-- A concrete instantiation of the `common` package tables (the theorems
quantify over all instantiations; fixtures only feed witnesses). -/
def gEx : Globals :=
  { defKubeletSettings := []
    defCriSocket := [("docker", "/var/run/dockershim.sock"),
                     ("containerd", "/run/containerd/containerd.sock")]
    defAPIServerPort := 6443
    defResolvUpstreamConf := "/run/netconfig/resolv.conf" }

/-- A concrete token constructor that succeeds and sets an expiry. -/
def nbt0 : String → Except GoError BootstrapToken :=
  fun s => .ok { token := s, expires := some 7 }

/-- The empty source tree. -/
def dEmpty : ResourceData :=
  { strings := fun _ => none, lists := fun _ => none, maps := fun _ => none
    blocks := fun _ => false }

/-- A token constructor that always fails. -/
def nbtErr : String → Except GoError BootstrapToken :=
  fun _ => .error (.tokenError "the bootstrap token does not parse")

/-- Source tree with the DNS domain `My_Cluster` (uppercase and an
underscore: not a DNS-1123 subdomain as a whole). -/
def dC1 : ResourceData :=
  { strings := fun p => if p = "network.0.dns.0.domain" then some "My_Cluster" else none
    lists := fun _ => none, maps := fun _ => none
    blocks := fun p => p == "network.0" || p == "network.0.dns.0" }

/-- Source tree whose only content is a non-empty DNS upstream list. -/
def dC2a : ResourceData :=
  { strings := fun _ => none
    lists := fun p => if p = "network.0.dns.0.upstream" then some ["8.8.8.8"] else none
    maps := fun _ => none
    blocks := fun p => p == "network.0" || p == "network.0.dns.0" }

/-- Source tree with an internal endpoint whose port substring is `-1`. -/
def dC7 : ResourceData :=
  { strings := fun p => if p = "api.0.internal" then some "10.0.0.5:-1" else none
    lists := fun _ => none, maps := fun _ => none
    blocks := fun p => p == "api.0" }

/-- Source tree with an internal endpoint whose port substring is `x9`. -/
def dC7w : ResourceData :=
  { strings := fun p => if p = "api.0.internal" then some "10.0.0.5:x9" else none
    lists := fun _ => none, maps := fun _ => none
    blocks := fun p => p == "api.0" }

/-- Source tree supplying both an embedded-datastore image repository and an
external-datastore endpoint list. -/
def dC8 : ResourceData :=
  { strings := fun p => if p = "images.0.etcd_repo" then some "quay.io/coreos" else none
    lists := fun p => if p = "etcd.0.endpoints" then some ["http://e:2379"] else none
    maps := fun _ => none
    blocks := fun p => p == "images.0" || p == "etcd.0" }

/-- Source tree supplying only an external-datastore endpoint list. -/
def dC8w : ResourceData :=
  { strings := fun _ => none
    lists := fun p => if p = "etcd.0.endpoints" then some ["http://e:2379"] else none
    maps := fun _ => none
    blocks := fun p => p == "etcd.0" }

/-- Source tree with a cloud provider and one pre-seeded extra-args map. -/
def dC3w : ResourceData :=
  { strings := fun p => if p = "cloud.0.provider" then some "aws" else none
    lists := fun _ => none, maps := fun _ => none
    blocks := fun _ => false }

/-- A configuration with pre-populated extra-args maps, for fan-out tests. -/
def cC3 : InitConfiguration :=
  { clusterConfiguration :=
      { apiServer := { certSANs := [], extraArgs := some [("audit-log-path", "/tmp/a")] }
        controllerManager := { extraArgs := none }
        scheduler := { extraArgs := some [("v", "2")] } }
    nodeRegistration := { kubeletExtraArgs := .owned [("node-ip", "10.0.0.5")] } }

/-- Source tree whose images block is present but whose kube-repository
path is absent. -/
def dC6w : ResourceData :=
  { strings := fun _ => none, lists := fun _ => none, maps := fun _ => none
    blocks := fun p => p == "images.0" }

/-- Source tree with an unknown runtime engine name. -/
def dC5w : ResourceData :=
  { strings := fun p => if p = "runtime.0.engine" then some "podman-typo" else none
    lists := fun _ => none, maps := fun _ => none
    blocks := fun p => p == "runtime.0" }

/-- Source tree with a known engine and the four extra-args sub-maps. -/
def dC9w : ResourceData :=
  { strings := fun _ => none, lists := fun _ => none
    maps := fun p =>
      if p = "runtime.0.extra_args.0.api_server" then some [("a", "1")]
      else if p = "runtime.0.extra_args.0.controller_manager" then some [("b", "2")]
      else if p = "runtime.0.extra_args.0.scheduler" then some [("c", "3")]
      else if p = "runtime.0.extra_args.0.kubelet" then some [("k", "4")]
      else none
    blocks := fun p => p == "runtime.0" || p == "runtime.0.extra_args.0" }

/-- Source tree with the engine `docker` and a kubelet extra-args sub-map
that lacks the `container-runtime-endpoint` key. -/
def dC10w : ResourceData :=
  { strings := fun p => if p = "runtime.0.engine" then some "docker" else none
    lists := fun _ => none
    maps := fun p =>
      if p = "runtime.0.extra_args.0.kubelet" then some [("node-ip", "10.0.0.5")] else none
    blocks := fun p => p == "runtime.0" || p == "runtime.0.extra_args.0" }

/-- The expected result of deriving `dC10w`: the kubelet extra-args were
replaced wholesale, the runtime socket is set, and the synthesized endpoint
entry survives only in the mutated package-level map. -/
def cW10 : InitConfiguration :=
  { baseInitConfig with nodeRegistration :=
      { kubeletExtraArgs := .owned [("node-ip", "10.0.0.5")]
        criSocket := "/var/run/dockershim.sock" } }

/-- The package-level map after deriving `dC10w` (mutated through the
alias by the engine lookup before the kubelet replacement). -/
def stW10 : Smap := [("container-runtime-endpoint", "unix:///var/run/dockershim.sock")]

/-- The expected result of deriving `dC8w` (only the external variant). -/
def cW8 : InitConfiguration :=
  { baseInitConfig with clusterConfiguration :=
      { baseInitConfig.clusterConfiguration with etcd :=
          { localE := none, ext := some { endpoints := ["http://e:2379"] } } } }

/-- The expected result of deriving the empty tree with the token `tok`. -/
def cW4 : InitConfiguration :=
  { baseInitConfig with bootstrapTokens := [{ token := "tok", expires := none }] }

/-! ## Association-list map lemmas -/

theorem Smap.get?_set_self (m : Smap) (k v : String) :
    (m.set k v).get? k = some v := by
  induction m with
  | nil => simp [Smap.set, Smap.get?]
  | cons hd tl ih =>
      obtain ⟨k', v'⟩ := hd
      by_cases h : k' = k <;> simp [Smap.set, Smap.get?, h, ih]

theorem Smap.get?_set_ne (m : Smap) (k k' v : String) (h : k' ≠ k) :
    (m.set k' v).get? k = m.get? k := by
  induction m with
  | nil => simp [Smap.set, Smap.get?, h]
  | cons hd tl ih =>
      obtain ⟨k0, v0⟩ := hd
      by_cases h0 : k0 = k'
      · subst h0; simp [Smap.set, Smap.get?, h]
      · simp [Smap.set, Smap.get?, h0, ih]

end KubeadmInit

namespace KubeadmInit

/-! ## Frame lemmas: which fields each step can touch -/

theorem appendCertSAN_frame (c : InitConfiguration) (ns : List String) :
    (appendCertSAN c ns).clusterConfiguration.networking = c.clusterConfiguration.networking ∧
    (appendCertSAN c ns).clusterConfiguration.imageRepository = c.clusterConfiguration.imageRepository ∧
    (appendCertSAN c ns).clusterConfiguration.etcd = c.clusterConfiguration.etcd ∧
    (appendCertSAN c ns).clusterConfiguration.kubernetesVersion = c.clusterConfiguration.kubernetesVersion ∧
    (appendCertSAN c ns).clusterConfiguration.controllerManager = c.clusterConfiguration.controllerManager ∧
    (appendCertSAN c ns).clusterConfiguration.scheduler = c.clusterConfiguration.scheduler ∧
    (appendCertSAN c ns).clusterConfiguration.apiServer.extraArgs = c.clusterConfiguration.apiServer.extraArgs ∧
    (appendCertSAN c ns).clusterConfiguration.controlPlaneEndpoint = c.clusterConfiguration.controlPlaneEndpoint ∧
    (appendCertSAN c ns).localAPIEndpoint = c.localAPIEndpoint ∧
    (appendCertSAN c ns).nodeRegistration = c.nodeRegistration ∧
    (appendCertSAN c ns).bootstrapTokens = c.bootstrapTokens := by
  unfold appendCertSAN
  simp

theorem apiExternalPart_frame (g : Globals) (d : ResourceData) (c : InitConfiguration) :
    (apiExternalPart g d c).clusterConfiguration.networking = c.clusterConfiguration.networking ∧
    (apiExternalPart g d c).clusterConfiguration.imageRepository = c.clusterConfiguration.imageRepository ∧
    (apiExternalPart g d c).clusterConfiguration.etcd = c.clusterConfiguration.etcd ∧
    (apiExternalPart g d c).clusterConfiguration.kubernetesVersion = c.clusterConfiguration.kubernetesVersion ∧
    (apiExternalPart g d c).clusterConfiguration.controllerManager = c.clusterConfiguration.controllerManager ∧
    (apiExternalPart g d c).clusterConfiguration.scheduler = c.clusterConfiguration.scheduler ∧
    (apiExternalPart g d c).clusterConfiguration.apiServer = c.clusterConfiguration.apiServer ∧
    (apiExternalPart g d c).localAPIEndpoint = c.localAPIEndpoint ∧
    (apiExternalPart g d c).nodeRegistration = c.nodeRegistration ∧
    (apiExternalPart g d c).bootstrapTokens = c.bootstrapTokens := by
  unfold apiExternalPart
  split <;> simp

theorem bindPortPart_frame (port : String) (c c' : InitConfiguration)
    (h : bindPortPart port c = .ok c') :
    c'.clusterConfiguration = c.clusterConfiguration ∧
    c'.localAPIEndpoint.advertiseAddress = c.localAPIEndpoint.advertiseAddress ∧
    c'.nodeRegistration = c.nodeRegistration ∧
    c'.bootstrapTokens = c.bootstrapTokens := by
  unfold bindPortPart at h
  split at h
  · cases ha : goAtoi port with
    | error e => simp only [ha] at h; exact Except.noConfusion h
    | ok i =>
        simp only [ha] at h
        injection h with h
        subst h
        simp
  · injection h with h
    subst h
    simp

theorem apiInternalPart_frame (d : ResourceData) (c c' : InitConfiguration)
    (h : apiInternalPart d c = .ok c') :
    c'.clusterConfiguration.networking = c.clusterConfiguration.networking ∧
    c'.clusterConfiguration.imageRepository = c.clusterConfiguration.imageRepository ∧
    c'.clusterConfiguration.etcd = c.clusterConfiguration.etcd ∧
    c'.clusterConfiguration.kubernetesVersion = c.clusterConfiguration.kubernetesVersion ∧
    c'.clusterConfiguration.controllerManager = c.clusterConfiguration.controllerManager ∧
    c'.clusterConfiguration.scheduler = c.clusterConfiguration.scheduler ∧
    c'.clusterConfiguration.apiServer.extraArgs = c.clusterConfiguration.apiServer.extraArgs ∧
    c'.clusterConfiguration.controlPlaneEndpoint = c.clusterConfiguration.controlPlaneEndpoint ∧
    c'.nodeRegistration = c.nodeRegistration ∧
    c'.bootstrapTokens = c.bootstrapTokens := by
  unfold apiInternalPart at h
  cases hg : getOkS d "api.0.internal" with
  | none =>
      simp only [hg] at h
      injection h with h
      subst h
      exact ⟨rfl, rfl, rfl, rfl, rfl, rfl, rfl, rfl, rfl, rfl⟩
  | some internalAddr =>
      simp only [hg] at h
      cases hsp : splitHostPort internalAddr with
      | error e => simp only [hsp] at h; exact Except.noConfusion h
      | ok hp =>
          obtain ⟨host, port⟩ := hp
          simp only [hsp] at h
          cases hbp : bindPortPart port
              { c with localAPIEndpoint :=
                  { c.localAPIEndpoint with advertiseAddress := host } } with
          | error e => simp only [hbp] at h; exact Except.noConfusion h
          | ok c4 =>
              simp only [hbp] at h
              injection h with h
              subst h
              obtain ⟨hb1, hb2, hb3, hb4⟩ := bindPortPart_frame _ _ _ hbp
              obtain ⟨a1, a2, a3, a4, a5, a6, a7, a8, a9, a10, a11⟩ :=
                appendCertSAN_frame c4 [host]
              refine ⟨?_, ?_, ?_, ?_, ?_, ?_, ?_, ?_, ?_, ?_⟩ <;>
                simp_all

theorem apiAltNamesPart_frame (d : ResourceData) (c : InitConfiguration) :
    (apiAltNamesPart d c).clusterConfiguration.networking = c.clusterConfiguration.networking ∧
    (apiAltNamesPart d c).clusterConfiguration.imageRepository = c.clusterConfiguration.imageRepository ∧
    (apiAltNamesPart d c).clusterConfiguration.etcd = c.clusterConfiguration.etcd ∧
    (apiAltNamesPart d c).clusterConfiguration.kubernetesVersion = c.clusterConfiguration.kubernetesVersion ∧
    (apiAltNamesPart d c).clusterConfiguration.controllerManager = c.clusterConfiguration.controllerManager ∧
    (apiAltNamesPart d c).clusterConfiguration.scheduler = c.clusterConfiguration.scheduler ∧
    (apiAltNamesPart d c).clusterConfiguration.apiServer.extraArgs = c.clusterConfiguration.apiServer.extraArgs ∧
    (apiAltNamesPart d c).clusterConfiguration.controlPlaneEndpoint = c.clusterConfiguration.controlPlaneEndpoint ∧
    (apiAltNamesPart d c).localAPIEndpoint = c.localAPIEndpoint ∧
    (apiAltNamesPart d c).nodeRegistration = c.nodeRegistration ∧
    (apiAltNamesPart d c).bootstrapTokens = c.bootstrapTokens := by
  unfold apiAltNamesPart
  split
  · exact appendCertSAN_frame c _
  · exact ⟨rfl, rfl, rfl, rfl, rfl, rfl, rfl, rfl, rfl, rfl, rfl⟩

theorem apiStep_frame (g : Globals) (d : ResourceData) (c c' : InitConfiguration)
    (h : apiStep g d c = .ok c') :
    c'.clusterConfiguration.networking = c.clusterConfiguration.networking ∧
    c'.clusterConfiguration.imageRepository = c.clusterConfiguration.imageRepository ∧
    c'.clusterConfiguration.etcd = c.clusterConfiguration.etcd ∧
    c'.clusterConfiguration.kubernetesVersion = c.clusterConfiguration.kubernetesVersion ∧
    c'.clusterConfiguration.controllerManager = c.clusterConfiguration.controllerManager ∧
    c'.clusterConfiguration.scheduler = c.clusterConfiguration.scheduler ∧
    c'.clusterConfiguration.apiServer.extraArgs = c.clusterConfiguration.apiServer.extraArgs ∧
    c'.nodeRegistration = c.nodeRegistration ∧
    c'.bootstrapTokens = c.bootstrapTokens := by
  unfold apiStep at h
  split at h
  · cases hi : apiInternalPart d (apiExternalPart g d c) with
    | error e => simp only [hi] at h; exact Except.noConfusion h
    | ok c5 =>
        simp only [hi] at h
        injection h with h
        subst h
        obtain ⟨i1, i2, i3, i4, i5, i6, i7, i8, i9, i10⟩ :=
          apiInternalPart_frame _ _ _ hi
        obtain ⟨e1, e2, e3, e4, e5, e6, e7, e8, e9, e10⟩ :=
          apiExternalPart_frame g d c
        obtain ⟨n1, n2, n3, n4, n5, n6, n7, n8, n9, n10, n11⟩ :=
          apiAltNamesPart_frame d c5
        refine ⟨?_, ?_, ?_, ?_, ?_, ?_, ?_, ?_, ?_⟩ <;> simp_all
  · injection h with h
    subst h
    exact ⟨rfl, rfl, rfl, rfl, rfl, rfl, rfl, rfl, rfl⟩

end KubeadmInit

namespace KubeadmInit

theorem kubeletWrite_frame (c : InitConfiguration) (st : Smap) (k v : String) :
    (kubeletWrite c st k v).1.clusterConfiguration = c.clusterConfiguration ∧
    (kubeletWrite c st k v).1.localAPIEndpoint = c.localAPIEndpoint ∧
    (kubeletWrite c st k v).1.nodeRegistration.criSocket = c.nodeRegistration.criSocket ∧
    (kubeletWrite c st k v).1.bootstrapTokens = c.bootstrapTokens := by
  unfold kubeletWrite
  simp

theorem kubeletWrite_resolve (c : InitConfiguration) (st : Smap) (k v : String) :
    (kubeletWrite c st k v).1.nodeRegistration.kubeletExtraArgs.resolve
      (kubeletWrite c st k v).2 =
    (c.nodeRegistration.kubeletExtraArgs.resolve st).set k v := by
  unfold kubeletWrite KRef.write
  cases c.nodeRegistration.kubeletExtraArgs <;> simp [KRef.resolve]

theorem upstreamPart_frame (g : Globals) (d : ResourceData) (c : InitConfiguration)
    (st : Smap) :
    (upstreamPart g d c st).1.clusterConfiguration = c.clusterConfiguration ∧
    (upstreamPart g d c st).1.localAPIEndpoint = c.localAPIEndpoint ∧
    (upstreamPart g d c st).1.nodeRegistration.criSocket = c.nodeRegistration.criSocket ∧
    (upstreamPart g d c st).1.bootstrapTokens = c.bootstrapTokens := by
  unfold upstreamPart
  repeat' split
  all_goals first
    | exact kubeletWrite_frame c st _ _
    | exact ⟨rfl, rfl, rfl, rfl⟩

theorem upstreamPart_resolved_ne (g : Globals) (d : ResourceData)
    (c : InitConfiguration) (st : Smap) (k : String) (hk : k ≠ "resolv-conf") :
    ((upstreamPart g d c st).1.nodeRegistration.kubeletExtraArgs.resolve
      (upstreamPart g d c st).2).get? k =
    (c.nodeRegistration.kubeletExtraArgs.resolve st).get? k := by
  unfold upstreamPart
  repeat' split
  · rw [kubeletWrite_resolve]
    exact Smap.get?_set_ne _ _ _ _ (fun e => hk e.symm)
  all_goals rfl

theorem upstreamPart_id (g : Globals) (d : ResourceData) (c : InitConfiguration)
    (st : Smap) (h : getOkL d "network.0.dns.0.upstream" = none) :
    upstreamPart g d c st = (c, st) := by
  unfold upstreamPart
  rw [h]

end KubeadmInit

namespace KubeadmInit

theorem podsPart_frame (d : ResourceData) (c : InitConfiguration) :
    (podsPart d c).clusterConfiguration.apiServer = c.clusterConfiguration.apiServer ∧
    (podsPart d c).clusterConfiguration.controllerManager = c.clusterConfiguration.controllerManager ∧
    (podsPart d c).clusterConfiguration.scheduler = c.clusterConfiguration.scheduler ∧
    (podsPart d c).clusterConfiguration.imageRepository = c.clusterConfiguration.imageRepository ∧
    (podsPart d c).clusterConfiguration.etcd = c.clusterConfiguration.etcd ∧
    (podsPart d c).clusterConfiguration.kubernetesVersion = c.clusterConfiguration.kubernetesVersion ∧
    (podsPart d c).clusterConfiguration.controlPlaneEndpoint = c.clusterConfiguration.controlPlaneEndpoint ∧
    (podsPart d c).clusterConfiguration.networking.serviceSubnet = c.clusterConfiguration.networking.serviceSubnet ∧
    (podsPart d c).clusterConfiguration.networking.dnsDomain = c.clusterConfiguration.networking.dnsDomain ∧
    (podsPart d c).localAPIEndpoint = c.localAPIEndpoint ∧
    (podsPart d c).nodeRegistration = c.nodeRegistration ∧
    (podsPart d c).bootstrapTokens = c.bootstrapTokens := by
  unfold podsPart
  split <;> simp

theorem podsPart_id (d : ResourceData) (c : InitConfiguration)
    (h : getOkS d "network.0.pods" = none) : podsPart d c = c := by
  unfold podsPart
  rw [h]

theorem servicesPart_frame (d : ResourceData) (c : InitConfiguration) :
    (servicesPart d c).clusterConfiguration.apiServer = c.clusterConfiguration.apiServer ∧
    (servicesPart d c).clusterConfiguration.controllerManager = c.clusterConfiguration.controllerManager ∧
    (servicesPart d c).clusterConfiguration.scheduler = c.clusterConfiguration.scheduler ∧
    (servicesPart d c).clusterConfiguration.imageRepository = c.clusterConfiguration.imageRepository ∧
    (servicesPart d c).clusterConfiguration.etcd = c.clusterConfiguration.etcd ∧
    (servicesPart d c).clusterConfiguration.kubernetesVersion = c.clusterConfiguration.kubernetesVersion ∧
    (servicesPart d c).clusterConfiguration.controlPlaneEndpoint = c.clusterConfiguration.controlPlaneEndpoint ∧
    (servicesPart d c).clusterConfiguration.networking.podSubnet = c.clusterConfiguration.networking.podSubnet ∧
    (servicesPart d c).clusterConfiguration.networking.dnsDomain = c.clusterConfiguration.networking.dnsDomain ∧
    (servicesPart d c).localAPIEndpoint = c.localAPIEndpoint ∧
    (servicesPart d c).nodeRegistration = c.nodeRegistration ∧
    (servicesPart d c).bootstrapTokens = c.bootstrapTokens := by
  unfold servicesPart
  split <;> simp

theorem servicesPart_id (d : ResourceData) (c : InitConfiguration)
    (h : getOkS d "network.0.services" = none) : servicesPart d c = c := by
  unfold servicesPart
  rw [h]

theorem dnsPart_frame (g : Globals) (d : ResourceData) (c c' : InitConfiguration)
    (st st' : Smap) (h : dnsPart g d c st = .ok (c', st')) :
    c'.clusterConfiguration.apiServer = c.clusterConfiguration.apiServer ∧
    c'.clusterConfiguration.controllerManager = c.clusterConfiguration.controllerManager ∧
    c'.clusterConfiguration.scheduler = c.clusterConfiguration.scheduler ∧
    c'.clusterConfiguration.imageRepository = c.clusterConfiguration.imageRepository ∧
    c'.clusterConfiguration.etcd = c.clusterConfiguration.etcd ∧
    c'.clusterConfiguration.kubernetesVersion = c.clusterConfiguration.kubernetesVersion ∧
    c'.clusterConfiguration.controlPlaneEndpoint = c.clusterConfiguration.controlPlaneEndpoint ∧
    c'.clusterConfiguration.networking.podSubnet = c.clusterConfiguration.networking.podSubnet ∧
    c'.clusterConfiguration.networking.serviceSubnet = c.clusterConfiguration.networking.serviceSubnet ∧
    c'.localAPIEndpoint = c.localAPIEndpoint ∧
    c'.nodeRegistration.criSocket = c.nodeRegistration.criSocket ∧
    c'.bootstrapTokens = c.bootstrapTokens := by
  unfold dnsPart at h
  split at h
  · cases hg : getOkS d "network.0.dns.0.domain" with
    | none =>
        simp only [hg] at h
        injection h with h
        have hc := congrArg Prod.fst h
        obtain ⟨u1, u2, u3, u4⟩ := upstreamPart_frame g d c st
        rw [hc] at u1 u2 u3 u4
        exact ⟨by rw [u1], by rw [u1], by rw [u1], by rw [u1], by rw [u1], by rw [u1],
          by rw [u1], by rw [u1], by rw [u1], u2, u3, u4⟩
    | some dom =>
        simp only [hg] at h
        split at h
        · injection h with h
          have hc := congrArg Prod.fst h
          obtain ⟨u1, u2, u3, u4⟩ := upstreamPart_frame g d
            { c with clusterConfiguration :=
                { c.clusterConfiguration with networking :=
                    { c.clusterConfiguration.networking with dnsDomain := dom } } } st
          rw [hc] at u1 u2 u3 u4
          refine ⟨?_, ?_, ?_, ?_, ?_, ?_, ?_, ?_, ?_, ?_, ?_, ?_⟩ <;>
            simp_all
        · exact Except.noConfusion h
  · injection h with h
    have hc := congrArg Prod.fst h
    simp only at hc
    subst hc
    exact ⟨rfl, rfl, rfl, rfl, rfl, rfl, rfl, rfl, rfl, rfl, rfl, rfl⟩

end KubeadmInit

namespace KubeadmInit

theorem dnsPart_pres_dnsDomain (g : Globals) (d : ResourceData)
    (c c' : InitConfiguration) (st st' : Smap)
    (h : dnsPart g d c st = .ok (c', st'))
    (hd : getOkS d "network.0.dns.0.domain" = none) :
    c'.clusterConfiguration.networking.dnsDomain =
      c.clusterConfiguration.networking.dnsDomain := by
  unfold dnsPart at h
  split at h
  · simp only [hd] at h
    injection h with h
    have hc := congrArg Prod.fst h
    obtain ⟨u1, _, _, _⟩ := upstreamPart_frame g d c st
    rw [hc] at u1
    rw [u1]
  · injection h with h
    have hc := congrArg Prod.fst h
    simp only at hc
    rw [← hc]

theorem dnsPart_pres_nodeReg (g : Globals) (d : ResourceData)
    (c c' : InitConfiguration) (st st' : Smap)
    (h : dnsPart g d c st = .ok (c', st'))
    (hu : getOkL d "network.0.dns.0.upstream" = none) :
    c'.nodeRegistration = c.nodeRegistration ∧ st' = st := by
  unfold dnsPart at h
  split at h
  · cases hg : getOkS d "network.0.dns.0.domain" with
    | none =>
        simp only [hg, upstreamPart_id g d _ _ hu] at h
        injection h with h
        have hc := congrArg Prod.fst h
        have hs := congrArg Prod.snd h
        simp only at hc hs
        exact ⟨by rw [← hc], hs.symm⟩
    | some dom =>
        simp only [hg] at h
        split at h
        · simp only [upstreamPart_id g d _ _ hu] at h
          injection h with h
          have hc := congrArg Prod.fst h
          have hs := congrArg Prod.snd h
          simp only at hc hs
          exact ⟨by rw [← hc], hs.symm⟩
        · exact Except.noConfusion h
  · injection h with h
    have hc := congrArg Prod.fst h
    have hs := congrArg Prod.snd h
    simp only at hc hs
    exact ⟨by rw [← hc], hs.symm⟩

theorem networkStep_frame (g : Globals) (d : ResourceData)
    (c c' : InitConfiguration) (st st' : Smap)
    (h : networkStep g d c st = .ok (c', st')) :
    c'.clusterConfiguration.apiServer = c.clusterConfiguration.apiServer ∧
    c'.clusterConfiguration.controllerManager = c.clusterConfiguration.controllerManager ∧
    c'.clusterConfiguration.scheduler = c.clusterConfiguration.scheduler ∧
    c'.clusterConfiguration.imageRepository = c.clusterConfiguration.imageRepository ∧
    c'.clusterConfiguration.etcd = c.clusterConfiguration.etcd ∧
    c'.clusterConfiguration.kubernetesVersion = c.clusterConfiguration.kubernetesVersion ∧
    c'.clusterConfiguration.controlPlaneEndpoint = c.clusterConfiguration.controlPlaneEndpoint ∧
    c'.localAPIEndpoint = c.localAPIEndpoint ∧
    c'.nodeRegistration.criSocket = c.nodeRegistration.criSocket ∧
    c'.bootstrapTokens = c.bootstrapTokens := by
  unfold networkStep at h
  split at h
  · obtain ⟨d1, d2, d3, d4, d5, d6, d7, d8, d9, d10, d11, d12⟩ :=
      dnsPart_frame g d _ _ _ _ h
    obtain ⟨s1, s2, s3, s4, s5, s6, s7, s8, s9, s10, s11, s12⟩ :=
      servicesPart_frame d (podsPart d c)
    obtain ⟨p1, p2, p3, p4, p5, p6, p7, p8, p9, p10, p11, p12⟩ :=
      podsPart_frame d c
    refine ⟨?_, ?_, ?_, ?_, ?_, ?_, ?_, ?_, ?_, ?_⟩ <;> simp_all
  · injection h with h
    have hc := congrArg Prod.fst h
    simp only at hc
    subst hc
    exact ⟨rfl, rfl, rfl, rfl, rfl, rfl, rfl, rfl, rfl, rfl⟩

end KubeadmInit

namespace KubeadmInit

theorem networkStep_pres_dnsDomain (g : Globals) (d : ResourceData)
    (c c' : InitConfiguration) (st st' : Smap)
    (h : networkStep g d c st = .ok (c', st'))
    (hd : getOkS d "network.0.dns.0.domain" = none) :
    c'.clusterConfiguration.networking.dnsDomain =
      c.clusterConfiguration.networking.dnsDomain := by
  unfold networkStep at h
  split at h
  · have hdns := dnsPart_pres_dnsDomain g d _ _ _ _ h hd
    obtain ⟨_, _, _, _, _, _, _, _, s9, _, _, _⟩ := servicesPart_frame d (podsPart d c)
    obtain ⟨_, _, _, _, _, _, _, _, p9, _, _, _⟩ := podsPart_frame d c
    rw [hdns, s9, p9]
  · injection h with h
    have hc := congrArg Prod.fst h
    simp only at hc
    rw [← hc]

theorem networkStep_pres_podSubnet (g : Globals) (d : ResourceData)
    (c c' : InitConfiguration) (st st' : Smap)
    (h : networkStep g d c st = .ok (c', st'))
    (hp : getOkS d "network.0.pods" = none) :
    c'.clusterConfiguration.networking.podSubnet =
      c.clusterConfiguration.networking.podSubnet := by
  unfold networkStep at h
  split at h
  · obtain ⟨_, _, _, _, _, _, _, d8, _, _, _, _⟩ := dnsPart_frame g d _ _ _ _ h
    obtain ⟨_, _, _, _, _, _, _, s8, _, _, _, _⟩ := servicesPart_frame d (podsPart d c)
    rw [d8, s8, podsPart_id d c hp]
  · injection h with h
    have hc := congrArg Prod.fst h
    simp only at hc
    rw [← hc]

theorem networkStep_pres_serviceSubnet (g : Globals) (d : ResourceData)
    (c c' : InitConfiguration) (st st' : Smap)
    (h : networkStep g d c st = .ok (c', st'))
    (hs : getOkS d "network.0.services" = none) :
    c'.clusterConfiguration.networking.serviceSubnet =
      c.clusterConfiguration.networking.serviceSubnet := by
  unfold networkStep at h
  split at h
  · obtain ⟨_, _, _, _, _, _, _, _, d9, _, _, _⟩ := dnsPart_frame g d _ _ _ _ h
    rw [d9, servicesPart_id d _ hs]
    obtain ⟨_, _, _, _, _, _, _, p8, _, _, _, _⟩ := podsPart_frame d c
    exact p8
  · injection h with h
    have hc := congrArg Prod.fst h
    simp only at hc
    rw [← hc]

theorem networkStep_pres_nodeReg (g : Globals) (d : ResourceData)
    (c c' : InitConfiguration) (st st' : Smap)
    (h : networkStep g d c st = .ok (c', st'))
    (hu : getOkL d "network.0.dns.0.upstream" = none) :
    c'.nodeRegistration = c.nodeRegistration ∧ st' = st := by
  unfold networkStep at h
  split at h
  · obtain ⟨hn, hst⟩ := dnsPart_pres_nodeReg g d _ _ _ _ h hu
    obtain ⟨_, _, _, _, _, _, _, _, _, _, s11, _⟩ := servicesPart_frame d (podsPart d c)
    obtain ⟨_, _, _, _, _, _, _, _, _, _, p11, _⟩ := podsPart_frame d c
    exact ⟨by rw [hn, s11, p11], hst⟩
  · injection h with h
    have hc := congrArg Prod.fst h
    have hs2 := congrArg Prod.snd h
    simp only at hc hs2
    exact ⟨by rw [← hc], hs2.symm⟩

end KubeadmInit

namespace KubeadmInit

theorem imagesStep_frame (d : ResourceData) (c : InitConfiguration) :
    (imagesStep d c).clusterConfiguration.apiServer = c.clusterConfiguration.apiServer ∧
    (imagesStep d c).clusterConfiguration.controllerManager = c.clusterConfiguration.controllerManager ∧
    (imagesStep d c).clusterConfiguration.scheduler = c.clusterConfiguration.scheduler ∧
    (imagesStep d c).clusterConfiguration.networking = c.clusterConfiguration.networking ∧
    (imagesStep d c).clusterConfiguration.kubernetesVersion = c.clusterConfiguration.kubernetesVersion ∧
    (imagesStep d c).clusterConfiguration.controlPlaneEndpoint = c.clusterConfiguration.controlPlaneEndpoint ∧
    (imagesStep d c).localAPIEndpoint = c.localAPIEndpoint ∧
    (imagesStep d c).nodeRegistration = c.nodeRegistration ∧
    (imagesStep d c).bootstrapTokens = c.bootstrapTokens := by
  unfold imagesStep
  repeat' split
  all_goals simp

theorem imagesStep_id (d : ResourceData) (c : InitConfiguration)
    (h : d.blocks "images.0" = false) : imagesStep d c = c := by
  unfold imagesStep
  rw [h]
  simp

theorem imagesStep_repo (d : ResourceData) (c : InitConfiguration)
    (h : d.blocks "images.0" = true) :
    (imagesStep d c).clusterConfiguration.imageRepository = getS d "images.0.kube_repo" := by
  unfold imagesStep
  simp only [h, if_true]
  by_cases hc : getS d "images.0.etcd_version" ≠ "" ∨ getS d "images.0.etcd_repo" ≠ ""
  · rw [if_pos hc]
  · rw [if_neg hc]

theorem imagesStep_etcd_set (d : ResourceData) (c : InitConfiguration)
    (h : d.blocks "images.0" = true)
    (he : getS d "images.0.etcd_version" ≠ "" ∨ getS d "images.0.etcd_repo" ≠ "") :
    (imagesStep d c).clusterConfiguration.etcd =
      { localE := some { imageMeta :=
          { imageRepository := getS d "images.0.etcd_repo"
            imageTag := getS d "images.0.etcd_version" } }
        ext := none } := by
  unfold imagesStep
  simp only [h, if_true]
  rw [if_pos he]

theorem imagesStep_etcd_pres (d : ResourceData) (c : InitConfiguration)
    (he : ¬ (getS d "images.0.etcd_version" ≠ "" ∨ getS d "images.0.etcd_repo" ≠ "")) :
    (imagesStep d c).clusterConfiguration.etcd = c.clusterConfiguration.etcd := by
  unfold imagesStep
  repeat' split
  all_goals simp_all

end KubeadmInit

namespace KubeadmInit

theorem engineStep_frame (g : Globals) (d : ResourceData)
    (c c' : InitConfiguration) (st st' : Smap)
    (h : engineStep g d c st = .ok (c', st')) :
    c'.clusterConfiguration = c.clusterConfiguration ∧
    c'.localAPIEndpoint = c.localAPIEndpoint ∧
    c'.bootstrapTokens = c.bootstrapTokens := by
  unfold engineStep at h
  cases hg : getOkS d "runtime.0.engine" with
  | none =>
      simp only [hg] at h
      injection h with h
      have hc := congrArg Prod.fst h
      simp only at hc
      subst hc
      exact ⟨rfl, rfl, rfl⟩
  | some eng =>
      simp only [hg] at h
      cases hs : g.defCriSocket.get? eng with
      | none => simp only [hs] at h; exact Except.noConfusion h
      | some socket =>
          simp only [hs] at h
          injection h with h
          have hc := congrArg Prod.fst h
          simp only at hc
          subst hc
          obtain ⟨w1, w2, w3, w4⟩ := kubeletWrite_frame c st
            "container-runtime-endpoint" ("unix://" ++ socket)
          exact ⟨w1, w2, w4⟩

theorem engineStep_id (g : Globals) (d : ResourceData) (c : InitConfiguration)
    (st : Smap) (h : getOkS d "runtime.0.engine" = none) :
    engineStep g d c st = .ok (c, st) := by
  unfold engineStep
  rw [h]

theorem engineStep_found (g : Globals) (d : ResourceData) (c : InitConfiguration)
    (st : Smap) (eng socket : String)
    (he : getOkS d "runtime.0.engine" = some eng)
    (hs : g.defCriSocket.get? eng = some socket) :
    ∃ c' st', engineStep g d c st = .ok (c', st') ∧
      c'.nodeRegistration.criSocket = socket ∧
      c'.nodeRegistration.kubeletExtraArgs.resolve st' =
        (c.nodeRegistration.kubeletExtraArgs.resolve st).set
          "container-runtime-endpoint" ("unix://" ++ socket) ∧
      (∀ m, c.nodeRegistration.kubeletExtraArgs = .owned m →
        ∃ m', c'.nodeRegistration.kubeletExtraArgs = .owned m' ∧ st' = st) ∧
      (c.nodeRegistration.kubeletExtraArgs = .global →
        c'.nodeRegistration.kubeletExtraArgs = .global) := by
  unfold engineStep
  simp only [he, hs]
  refine ⟨_, _, rfl, by simp [kubeletWrite], ?_, ?_, ?_⟩
  · have := kubeletWrite_resolve c st "container-runtime-endpoint" ("unix://" ++ socket)
    simpa [kubeletWrite] using this
  · intro m hm
    simp [kubeletWrite, KRef.write, hm]
  · intro hm
    simp [kubeletWrite, KRef.write, hm]

theorem engineStep_notfound (g : Globals) (d : ResourceData) (c : InitConfiguration)
    (st : Smap) (eng : String)
    (he : getOkS d "runtime.0.engine" = some eng)
    (hs : g.defCriSocket.get? eng = none) :
    engineStep g d c st = .error (.unknownRuntimeEngine eng) := by
  unfold engineStep
  simp only [he, hs]

end KubeadmInit

namespace KubeadmInit

theorem apiArgsPart_frame (d : ResourceData) (c : InitConfiguration) :
    (apiArgsPart d c).clusterConfiguration.apiServer.certSANs = c.clusterConfiguration.apiServer.certSANs ∧
    (apiArgsPart d c).clusterConfiguration.controllerManager = c.clusterConfiguration.controllerManager ∧
    (apiArgsPart d c).clusterConfiguration.scheduler = c.clusterConfiguration.scheduler ∧
    (apiArgsPart d c).clusterConfiguration.networking = c.clusterConfiguration.networking ∧
    (apiArgsPart d c).clusterConfiguration.imageRepository = c.clusterConfiguration.imageRepository ∧
    (apiArgsPart d c).clusterConfiguration.etcd = c.clusterConfiguration.etcd ∧
    (apiArgsPart d c).clusterConfiguration.kubernetesVersion = c.clusterConfiguration.kubernetesVersion ∧
    (apiArgsPart d c).clusterConfiguration.controlPlaneEndpoint = c.clusterConfiguration.controlPlaneEndpoint ∧
    (apiArgsPart d c).localAPIEndpoint = c.localAPIEndpoint ∧
    (apiArgsPart d c).nodeRegistration = c.nodeRegistration ∧
    (apiArgsPart d c).bootstrapTokens = c.bootstrapTokens := by
  unfold apiArgsPart
  split <;> simp

theorem apiArgsPart_set (d : ResourceData) (c : InitConfiguration) (m : Smap)
    (h : getOkM d "runtime.0.extra_args.0.api_server" = some m) :
    (apiArgsPart d c).clusterConfiguration.apiServer.extraArgs = some m := by
  unfold apiArgsPart
  simp only [h]

theorem apiArgsPart_id (d : ResourceData) (c : InitConfiguration)
    (h : getOkM d "runtime.0.extra_args.0.api_server" = none) :
    apiArgsPart d c = c := by
  unfold apiArgsPart
  simp only [h]

theorem cmArgsPart_frame (d : ResourceData) (c : InitConfiguration) :
    (cmArgsPart d c).clusterConfiguration.apiServer = c.clusterConfiguration.apiServer ∧
    (cmArgsPart d c).clusterConfiguration.scheduler = c.clusterConfiguration.scheduler ∧
    (cmArgsPart d c).clusterConfiguration.networking = c.clusterConfiguration.networking ∧
    (cmArgsPart d c).clusterConfiguration.imageRepository = c.clusterConfiguration.imageRepository ∧
    (cmArgsPart d c).clusterConfiguration.etcd = c.clusterConfiguration.etcd ∧
    (cmArgsPart d c).clusterConfiguration.kubernetesVersion = c.clusterConfiguration.kubernetesVersion ∧
    (cmArgsPart d c).clusterConfiguration.controlPlaneEndpoint = c.clusterConfiguration.controlPlaneEndpoint ∧
    (cmArgsPart d c).localAPIEndpoint = c.localAPIEndpoint ∧
    (cmArgsPart d c).nodeRegistration = c.nodeRegistration ∧
    (cmArgsPart d c).bootstrapTokens = c.bootstrapTokens := by
  unfold cmArgsPart
  split <;> simp

theorem cmArgsPart_set (d : ResourceData) (c : InitConfiguration) (m : Smap)
    (h : getOkM d "runtime.0.extra_args.0.controller_manager" = some m) :
    (cmArgsPart d c).clusterConfiguration.controllerManager.extraArgs = some m := by
  unfold cmArgsPart
  simp only [h]

theorem cmArgsPart_id (d : ResourceData) (c : InitConfiguration)
    (h : getOkM d "runtime.0.extra_args.0.controller_manager" = none) :
    cmArgsPart d c = c := by
  unfold cmArgsPart
  simp only [h]

theorem schedArgsPart_frame (d : ResourceData) (c : InitConfiguration) :
    (schedArgsPart d c).clusterConfiguration.apiServer = c.clusterConfiguration.apiServer ∧
    (schedArgsPart d c).clusterConfiguration.controllerManager = c.clusterConfiguration.controllerManager ∧
    (schedArgsPart d c).clusterConfiguration.networking = c.clusterConfiguration.networking ∧
    (schedArgsPart d c).clusterConfiguration.imageRepository = c.clusterConfiguration.imageRepository ∧
    (schedArgsPart d c).clusterConfiguration.etcd = c.clusterConfiguration.etcd ∧
    (schedArgsPart d c).clusterConfiguration.kubernetesVersion = c.clusterConfiguration.kubernetesVersion ∧
    (schedArgsPart d c).clusterConfiguration.controlPlaneEndpoint = c.clusterConfiguration.controlPlaneEndpoint ∧
    (schedArgsPart d c).localAPIEndpoint = c.localAPIEndpoint ∧
    (schedArgsPart d c).nodeRegistration = c.nodeRegistration ∧
    (schedArgsPart d c).bootstrapTokens = c.bootstrapTokens := by
  unfold schedArgsPart
  split <;> simp

theorem schedArgsPart_set (d : ResourceData) (c : InitConfiguration) (m : Smap)
    (h : getOkM d "runtime.0.extra_args.0.scheduler" = some m) :
    (schedArgsPart d c).clusterConfiguration.scheduler.extraArgs = some m := by
  unfold schedArgsPart
  simp only [h]

theorem schedArgsPart_id (d : ResourceData) (c : InitConfiguration)
    (h : getOkM d "runtime.0.extra_args.0.scheduler" = none) :
    schedArgsPart d c = c := by
  unfold schedArgsPart
  simp only [h]

theorem kubeletArgsPart_frame (d : ResourceData) (c : InitConfiguration) :
    (kubeletArgsPart d c).clusterConfiguration = c.clusterConfiguration ∧
    (kubeletArgsPart d c).localAPIEndpoint = c.localAPIEndpoint ∧
    (kubeletArgsPart d c).nodeRegistration.criSocket = c.nodeRegistration.criSocket ∧
    (kubeletArgsPart d c).bootstrapTokens = c.bootstrapTokens := by
  unfold kubeletArgsPart
  split <;> simp

theorem kubeletArgsPart_set (d : ResourceData) (c : InitConfiguration) (m : Smap)
    (h : getOkM d "runtime.0.extra_args.0.kubelet" = some m) :
    (kubeletArgsPart d c).nodeRegistration.kubeletExtraArgs = .owned m := by
  unfold kubeletArgsPart
  simp only [h]

theorem kubeletArgsPart_id (d : ResourceData) (c : InitConfiguration)
    (h : getOkM d "runtime.0.extra_args.0.kubelet" = none) :
    kubeletArgsPart d c = c := by
  unfold kubeletArgsPart
  simp only [h]

theorem extraArgsStep_frame (d : ResourceData) (c : InitConfiguration) :
    (extraArgsStep d c).clusterConfiguration.apiServer.certSANs = c.clusterConfiguration.apiServer.certSANs ∧
    (extraArgsStep d c).clusterConfiguration.networking = c.clusterConfiguration.networking ∧
    (extraArgsStep d c).clusterConfiguration.imageRepository = c.clusterConfiguration.imageRepository ∧
    (extraArgsStep d c).clusterConfiguration.etcd = c.clusterConfiguration.etcd ∧
    (extraArgsStep d c).clusterConfiguration.kubernetesVersion = c.clusterConfiguration.kubernetesVersion ∧
    (extraArgsStep d c).clusterConfiguration.controlPlaneEndpoint = c.clusterConfiguration.controlPlaneEndpoint ∧
    (extraArgsStep d c).localAPIEndpoint = c.localAPIEndpoint ∧
    (extraArgsStep d c).nodeRegistration.criSocket = c.nodeRegistration.criSocket ∧
    (extraArgsStep d c).bootstrapTokens = c.bootstrapTokens := by
  unfold extraArgsStep
  split
  · obtain ⟨k1, k2, k3, k4⟩ :=
      kubeletArgsPart_frame d (schedArgsPart d (cmArgsPart d (apiArgsPart d c)))
    obtain ⟨s1, s2, s3, s4, s5, s6, s7, s8, s9, s10⟩ :=
      schedArgsPart_frame d (cmArgsPart d (apiArgsPart d c))
    obtain ⟨m1, m2, m3, m4, m5, m6, m7, m8, m9, m10⟩ :=
      cmArgsPart_frame d (apiArgsPart d c)
    obtain ⟨a1, a2, a3, a4, a5, a6, a7, a8, a9, a10, a11⟩ :=
      apiArgsPart_frame d c
    refine ⟨?_, ?_, ?_, ?_, ?_, ?_, ?_, ?_, ?_⟩ <;> simp_all
  · exact ⟨rfl, rfl, rfl, rfl, rfl, rfl, rfl, rfl, rfl⟩

end KubeadmInit

namespace KubeadmInit

theorem runtimeStep_frame (g : Globals) (d : ResourceData)
    (c c' : InitConfiguration) (st st' : Smap)
    (h : runtimeStep g d c st = .ok (c', st')) :
    c'.clusterConfiguration.apiServer.certSANs = c.clusterConfiguration.apiServer.certSANs ∧
    c'.clusterConfiguration.networking = c.clusterConfiguration.networking ∧
    c'.clusterConfiguration.imageRepository = c.clusterConfiguration.imageRepository ∧
    c'.clusterConfiguration.etcd = c.clusterConfiguration.etcd ∧
    c'.clusterConfiguration.kubernetesVersion = c.clusterConfiguration.kubernetesVersion ∧
    c'.clusterConfiguration.controlPlaneEndpoint = c.clusterConfiguration.controlPlaneEndpoint ∧
    c'.localAPIEndpoint = c.localAPIEndpoint ∧
    c'.bootstrapTokens = c.bootstrapTokens := by
  unfold runtimeStep at h
  split at h
  · cases he : engineStep g d c st with
    | error e => simp only [he] at h; exact Except.noConfusion h
    | ok p =>
        obtain ⟨c1, st1⟩ := p
        simp only [he] at h
        injection h with h
        have hc := congrArg Prod.fst h
        simp only at hc
        obtain ⟨e1, e2, e3⟩ := engineStep_frame g d c c1 st st1 he
        obtain ⟨x1, x2, x3, x4, x5, x6, x7, x8, x9⟩ := extraArgsStep_frame d c1
        rw [hc] at x1 x2 x3 x4 x5 x6 x7 x9
        refine ⟨?_, ?_, ?_, ?_, ?_, ?_, ?_, ?_⟩ <;> simp_all
  · injection h with h
    have hc := congrArg Prod.fst h
    simp only at hc
    subst hc
    exact ⟨rfl, rfl, rfl, rfl, rfl, rfl, rfl, rfl⟩

theorem runtimeStep_id (g : Globals) (d : ResourceData) (c : InitConfiguration)
    (st : Smap) (h : d.blocks "runtime.0" = false) :
    runtimeStep g d c st = .ok (c, st) := by
  unfold runtimeStep
  rw [h]
  simp

theorem runtimeStep_pres_criSocket (g : Globals) (d : ResourceData)
    (c c' : InitConfiguration) (st st' : Smap)
    (h : runtimeStep g d c st = .ok (c', st'))
    (he : getOkS d "runtime.0.engine" = none) :
    c'.nodeRegistration.criSocket = c.nodeRegistration.criSocket := by
  unfold runtimeStep at h
  split at h
  · rw [engineStep_id g d c st he] at h
    injection h with h
    have hc := congrArg Prod.fst h
    simp only at hc
    obtain ⟨_, _, x3, _⟩ := kubeletArgsPart_frame d (schedArgsPart d (cmArgsPart d (apiArgsPart d c)))
    obtain ⟨_, _, _, _, _, _, _, _, s9, _⟩ := schedArgsPart_frame d (cmArgsPart d (apiArgsPart d c))
    obtain ⟨_, _, _, _, _, _, _, _, m9, _⟩ := cmArgsPart_frame d (apiArgsPart d c)
    obtain ⟨_, _, _, _, _, _, _, _, _, a10, _⟩ := apiArgsPart_frame d c
    rw [← hc]
    unfold extraArgsStep
    split
    · rw [x3, s9, m9, a10]
    · rfl
  · injection h with h
    have hc := congrArg Prod.fst h
    simp only at hc
    rw [← hc]

end KubeadmInit

namespace KubeadmInit

theorem cloudStep_frame (d : ResourceData) (c : InitConfiguration) (st : Smap) :
    (cloudStep d c st).1.clusterConfiguration.apiServer.certSANs = c.clusterConfiguration.apiServer.certSANs ∧
    (cloudStep d c st).1.clusterConfiguration.scheduler = c.clusterConfiguration.scheduler ∧
    (cloudStep d c st).1.clusterConfiguration.networking = c.clusterConfiguration.networking ∧
    (cloudStep d c st).1.clusterConfiguration.imageRepository = c.clusterConfiguration.imageRepository ∧
    (cloudStep d c st).1.clusterConfiguration.etcd = c.clusterConfiguration.etcd ∧
    (cloudStep d c st).1.clusterConfiguration.kubernetesVersion = c.clusterConfiguration.kubernetesVersion ∧
    (cloudStep d c st).1.clusterConfiguration.controlPlaneEndpoint = c.clusterConfiguration.controlPlaneEndpoint ∧
    (cloudStep d c st).1.localAPIEndpoint = c.localAPIEndpoint ∧
    (cloudStep d c st).1.nodeRegistration.criSocket = c.nodeRegistration.criSocket ∧
    (cloudStep d c st).1.bootstrapTokens = c.bootstrapTokens := by
  unfold cloudStep
  repeat' split
  all_goals simp [kubeletWrite]

theorem cloudStep_resolved_ne (d : ResourceData) (c : InitConfiguration)
    (st : Smap) (k : String) (hk : k ≠ "cloud-provider") :
    ((cloudStep d c st).1.nodeRegistration.kubeletExtraArgs.resolve
      (cloudStep d c st).2).get? k =
    (c.nodeRegistration.kubeletExtraArgs.resolve st).get? k := by
  unfold cloudStep
  repeat' split
  · cases href : c.nodeRegistration.kubeletExtraArgs with
    | global =>
        simp [kubeletWrite, KRef.write, href, KRef.resolve,
          Smap.get?_set_ne _ k _ _ (fun e => hk e.symm)]
    | owned m =>
        simp [kubeletWrite, KRef.write, href, KRef.resolve,
          Smap.get?_set_ne _ k _ _ (fun e => hk e.symm)]
  all_goals rfl

end KubeadmInit

namespace KubeadmInit

theorem cloudStep_id (d : ResourceData) (c : InitConfiguration) (st : Smap)
    (h : getOkS d "cloud.0.provider" = none) : cloudStep d c st = (c, st) := by
  unfold cloudStep
  simp only [h]

theorem cniBinPart_frame (d : ResourceData) (c : InitConfiguration) (st : Smap) :
    (cniBinPart d c st).1.clusterConfiguration = c.clusterConfiguration ∧
    (cniBinPart d c st).1.localAPIEndpoint = c.localAPIEndpoint ∧
    (cniBinPart d c st).1.nodeRegistration.criSocket = c.nodeRegistration.criSocket ∧
    (cniBinPart d c st).1.bootstrapTokens = c.bootstrapTokens := by
  unfold cniBinPart
  split
  · exact kubeletWrite_frame c st _ _
  · exact ⟨rfl, rfl, rfl, rfl⟩

theorem cniConfPart_frame (d : ResourceData) (c : InitConfiguration) (st : Smap) :
    (cniConfPart d c st).1.clusterConfiguration = c.clusterConfiguration ∧
    (cniConfPart d c st).1.localAPIEndpoint = c.localAPIEndpoint ∧
    (cniConfPart d c st).1.nodeRegistration.criSocket = c.nodeRegistration.criSocket ∧
    (cniConfPart d c st).1.bootstrapTokens = c.bootstrapTokens := by
  unfold cniConfPart
  split
  · exact kubeletWrite_frame c st _ _
  · exact ⟨rfl, rfl, rfl, rfl⟩

theorem cniStep_frame (d : ResourceData) (c : InitConfiguration) (st : Smap) :
    (cniStep d c st).1.clusterConfiguration = c.clusterConfiguration ∧
    (cniStep d c st).1.localAPIEndpoint = c.localAPIEndpoint ∧
    (cniStep d c st).1.nodeRegistration.criSocket = c.nodeRegistration.criSocket ∧
    (cniStep d c st).1.bootstrapTokens = c.bootstrapTokens := by
  unfold cniStep
  split
  · obtain ⟨b1, b2, b3, b4⟩ := cniBinPart_frame d c st
    obtain ⟨f1, f2, f3, f4⟩ := cniConfPart_frame d (cniBinPart d c st).1 (cniBinPart d c st).2
    exact ⟨by rw [f1, b1], by rw [f2, b2], by rw [f3, b3], by rw [f4, b4]⟩
  · exact ⟨rfl, rfl, rfl, rfl⟩

theorem cniBinPart_resolved_ne (d : ResourceData) (c : InitConfiguration)
    (st : Smap) (k : String) (hk : k ≠ "cni-bin-dir") :
    ((cniBinPart d c st).1.nodeRegistration.kubeletExtraArgs.resolve
      (cniBinPart d c st).2).get? k =
    (c.nodeRegistration.kubeletExtraArgs.resolve st).get? k := by
  unfold cniBinPart
  split
  · cases href : c.nodeRegistration.kubeletExtraArgs with
    | global =>
        simp [kubeletWrite, KRef.write, href, KRef.resolve,
          Smap.get?_set_ne _ k _ _ (fun e => hk e.symm)]
    | owned m =>
        simp [kubeletWrite, KRef.write, href, KRef.resolve,
          Smap.get?_set_ne _ k _ _ (fun e => hk e.symm)]
  · rfl

theorem cniConfPart_resolved_ne (d : ResourceData) (c : InitConfiguration)
    (st : Smap) (k : String) (hk : k ≠ "cni-conf-dir") :
    ((cniConfPart d c st).1.nodeRegistration.kubeletExtraArgs.resolve
      (cniConfPart d c st).2).get? k =
    (c.nodeRegistration.kubeletExtraArgs.resolve st).get? k := by
  unfold cniConfPart
  split
  · cases href : c.nodeRegistration.kubeletExtraArgs with
    | global =>
        simp [kubeletWrite, KRef.write, href, KRef.resolve,
          Smap.get?_set_ne _ k _ _ (fun e => hk e.symm)]
    | owned m =>
        simp [kubeletWrite, KRef.write, href, KRef.resolve,
          Smap.get?_set_ne _ k _ _ (fun e => hk e.symm)]
  · rfl

theorem cniStep_resolved_ne (d : ResourceData) (c : InitConfiguration)
    (st : Smap) (k : String) (hk1 : k ≠ "cni-bin-dir") (hk2 : k ≠ "cni-conf-dir") :
    ((cniStep d c st).1.nodeRegistration.kubeletExtraArgs.resolve
      (cniStep d c st).2).get? k =
    (c.nodeRegistration.kubeletExtraArgs.resolve st).get? k := by
  unfold cniStep
  split
  · rw [cniConfPart_resolved_ne d _ _ k hk2, cniBinPart_resolved_ne d _ _ k hk1]
  · rfl

theorem cniStep_id (d : ResourceData) (c : InitConfiguration) (st : Smap)
    (h : d.blocks "cni.0" = false) : cniStep d c st = (c, st) := by
  unfold cniStep
  rw [h]
  simp

theorem versionStep_frame (d : ResourceData) (c : InitConfiguration) :
    (versionStep d c).clusterConfiguration.apiServer = c.clusterConfiguration.apiServer ∧
    (versionStep d c).clusterConfiguration.controllerManager = c.clusterConfiguration.controllerManager ∧
    (versionStep d c).clusterConfiguration.scheduler = c.clusterConfiguration.scheduler ∧
    (versionStep d c).clusterConfiguration.networking = c.clusterConfiguration.networking ∧
    (versionStep d c).clusterConfiguration.imageRepository = c.clusterConfiguration.imageRepository ∧
    (versionStep d c).clusterConfiguration.etcd = c.clusterConfiguration.etcd ∧
    (versionStep d c).clusterConfiguration.controlPlaneEndpoint = c.clusterConfiguration.controlPlaneEndpoint ∧
    (versionStep d c).localAPIEndpoint = c.localAPIEndpoint ∧
    (versionStep d c).nodeRegistration = c.nodeRegistration ∧
    (versionStep d c).bootstrapTokens = c.bootstrapTokens := by
  unfold versionStep
  repeat' split
  all_goals simp

theorem versionStep_id (d : ResourceData) (c : InitConfiguration)
    (h : getOkS d "version" = none) : versionStep d c = c := by
  unfold versionStep
  simp only [h]

theorem etcdStep_frame (d : ResourceData) (c : InitConfiguration) :
    (etcdStep d c).clusterConfiguration.apiServer = c.clusterConfiguration.apiServer ∧
    (etcdStep d c).clusterConfiguration.controllerManager = c.clusterConfiguration.controllerManager ∧
    (etcdStep d c).clusterConfiguration.scheduler = c.clusterConfiguration.scheduler ∧
    (etcdStep d c).clusterConfiguration.networking = c.clusterConfiguration.networking ∧
    (etcdStep d c).clusterConfiguration.imageRepository = c.clusterConfiguration.imageRepository ∧
    (etcdStep d c).clusterConfiguration.etcd.localE = c.clusterConfiguration.etcd.localE ∧
    (etcdStep d c).clusterConfiguration.kubernetesVersion = c.clusterConfiguration.kubernetesVersion ∧
    (etcdStep d c).clusterConfiguration.controlPlaneEndpoint = c.clusterConfiguration.controlPlaneEndpoint ∧
    (etcdStep d c).localAPIEndpoint = c.localAPIEndpoint ∧
    (etcdStep d c).nodeRegistration = c.nodeRegistration ∧
    (etcdStep d c).bootstrapTokens = c.bootstrapTokens := by
  unfold etcdStep
  repeat' split
  all_goals simp

theorem etcdStep_ext_pres (d : ResourceData) (c : InitConfiguration)
    (h : getOkL d "etcd.0.endpoints" = none) :
    (etcdStep d c).clusterConfiguration.etcd.ext = c.clusterConfiguration.etcd.ext := by
  unfold etcdStep
  split
  · simp only [h]
  · rfl

theorem etcdStep_ext_set (d : ResourceData) (c : InitConfiguration) (eps : List String)
    (hb : d.blocks "etcd.0" = true) (h : getOkL d "etcd.0.endpoints" = some eps) :
    ∃ x, (etcdStep d c).clusterConfiguration.etcd.ext = some x ∧ x.endpoints = eps := by
  unfold etcdStep
  simp only [hb, if_true, h]
  cases hx : c.clusterConfiguration.etcd.ext <;> simp [hx]

theorem tokenStep_frame (nbt : String → Except GoError BootstrapToken)
    (token : String) (c c' : InitConfiguration)
    (h : tokenStep nbt token c = .ok c') :
    c'.clusterConfiguration = c.clusterConfiguration ∧
    c'.localAPIEndpoint = c.localAPIEndpoint ∧
    c'.nodeRegistration = c.nodeRegistration := by
  unfold tokenStep at h
  split at h
  · cases hn : nbt token with
    | error e => simp only [hn] at h; exact Except.noConfusion h
    | ok t =>
        simp only [hn] at h
        injection h with h
        subst h
        exact ⟨rfl, rfl, rfl⟩
  · injection h with h
    subst h
    exact ⟨rfl, rfl, rfl⟩

theorem tokenStep_empty (nbt : String → Except GoError BootstrapToken)
    (c : InitConfiguration) : tokenStep nbt "" c = .ok c := by
  unfold tokenStep
  simp

end KubeadmInit

namespace KubeadmInit

theorem pipe2_ok (g : Globals) (d : ResourceData) (c2 : InitConfiguration)
    (st2 : Smap) (h : pipe2 g d = .ok (c2, st2)) :
    ∃ c1, apiStep g d baseInitConfig = .ok c1 ∧
      networkStep g d c1 g.defKubeletSettings = .ok (c2, st2) := by
  unfold pipe2 at h
  cases ha : apiStep g d baseInitConfig with
  | error e => simp only [ha] at h; exact Except.noConfusion h
  | ok c1 => simp only [ha] at h; exact ⟨c1, rfl, h⟩

theorem pipe2_err (g : Globals) (d : ResourceData) (e : GoError)
    (h : apiStep g d baseInitConfig = .error e) : pipe2 g d = .error e := by
  unfold pipe2
  simp only [h]

theorem pipe4_ok (g : Globals) (d : ResourceData) (c4 : InitConfiguration)
    (st4 : Smap) (h : pipe4 g d = .ok (c4, st4)) :
    ∃ c2 st2, pipe2 g d = .ok (c2, st2) ∧
      runtimeStep g d (imagesStep d c2) st2 = .ok (c4, st4) := by
  unfold pipe4 at h
  cases hp : pipe2 g d with
  | error e => simp only [hp] at h; exact Except.noConfusion h
  | ok p =>
      obtain ⟨c2, st2⟩ := p
      simp only [hp] at h
      exact ⟨c2, st2, rfl, h⟩

theorem prePipeline_ok (g : Globals) (d : ResourceData) (c8 : InitConfiguration)
    (st8 : Smap) (h : prePipeline g d = .ok (c8, st8)) :
    ∃ c4 st4, pipe4 g d = .ok (c4, st4) ∧
      c8 = etcdStep d (versionStep d
        (cniStep d (cloudStep d c4 st4).1 (cloudStep d c4 st4).2).1) ∧
      st8 = (cniStep d (cloudStep d c4 st4).1 (cloudStep d c4 st4).2).2 := by
  unfold prePipeline at h
  cases hp : pipe4 g d with
  | error e => simp only [hp] at h; exact Except.noConfusion h
  | ok p =>
      obtain ⟨c4, st4⟩ := p
      simp only [hp] at h
      injection h with h
      have hc := congrArg Prod.fst h
      have hs := congrArg Prod.snd h
      simp only at hc hs
      exact ⟨c4, st4, rfl, hc.symm, hs.symm⟩

theorem dataSource_ok (g : Globals) (nbt : String → Except GoError BootstrapToken)
    (d : ResourceData) (token : String) (c9 : InitConfiguration) (st : Smap)
    (h : dataSourceToInitConfig g nbt d token = .ok (c9, st)) :
    ∃ c8, prePipeline g d = .ok (c8, st) ∧ tokenStep nbt token c8 = .ok c9 := by
  unfold dataSourceToInitConfig at h
  cases hp : prePipeline g d with
  | error e => simp only [hp] at h; exact Except.noConfusion h
  | ok p =>
      obtain ⟨c8, st0⟩ := p
      simp only [hp] at h
      cases ht : tokenStep nbt token c8 with
      | error e => simp only [ht] at h; exact Except.noConfusion h
      | ok c9' =>
          simp only [ht] at h
          injection h with h
          have hc := congrArg Prod.fst h
          have hs := congrArg Prod.snd h
          simp only at hc hs
          exact ⟨c8, by rw [hs], by rw [ht, hc]⟩

theorem dataSource_err_api (g : Globals)
    (nbt : String → Except GoError BootstrapToken) (d : ResourceData)
    (token : String) (e : GoError)
    (h : apiStep g d baseInitConfig = .error e) :
    dataSourceToInitConfig g nbt d token = .error e := by
  unfold dataSourceToInitConfig prePipeline pipe4
  rw [pipe2_err g d e h]

theorem prePipeline_tokens (g : Globals) (d : ResourceData)
    (c8 : InitConfiguration) (st8 : Smap)
    (h : prePipeline g d = .ok (c8, st8)) : c8.bootstrapTokens = [] := by
  obtain ⟨c4, st4, hp4, hc8, _⟩ := prePipeline_ok g d c8 st8 h
  obtain ⟨c2, st2, hp2, hrt⟩ := pipe4_ok g d c4 st4 hp4
  obtain ⟨c1, hap, hnw⟩ := pipe2_ok g d c2 st2 hp2
  obtain ⟨_, _, _, _, _, _, _, _, a9⟩ := apiStep_frame g d baseInitConfig c1 hap
  obtain ⟨_, _, _, _, _, _, _, _, _, n10⟩ :=
    networkStep_frame g d c1 c2 g.defKubeletSettings st2 hnw
  obtain ⟨_, _, _, _, _, _, _, _, i9⟩ := imagesStep_frame d c2
  obtain ⟨_, _, _, _, _, _, _, r8⟩ :=
    runtimeStep_frame g d (imagesStep d c2) c4 st2 st4 hrt
  obtain ⟨_, _, _, _, _, _, _, _, _, cl10⟩ := cloudStep_frame d c4 st4
  obtain ⟨_, _, _, cn4⟩ := cniStep_frame d (cloudStep d c4 st4).1 (cloudStep d c4 st4).2
  obtain ⟨_, _, _, _, _, _, _, _, _, v10⟩ :=
    versionStep_frame d (cniStep d (cloudStep d c4 st4).1 (cloudStep d c4 st4).2).1
  obtain ⟨_, _, _, _, _, _, _, _, _, _, e11⟩ :=
    etcdStep_frame d (versionStep d (cniStep d (cloudStep d c4 st4).1 (cloudStep d c4 st4).2).1)
  rw [hc8, e11, v10, cn4, cl10, r8, i9, n10, a9]
  rfl

end KubeadmInit

namespace KubeadmInit

/-- Claim C3: with a present non-empty cloud-provider name, the fan-out
step writes `cloud-provider = external` into exactly the kubelet,
API-server and controller-manager extra-args mappings (allocating absent
mappings), preserving every unrelated key already present and leaving the
scheduler mapping untouched. -/
theorem C3_cloud_provider_fanout (d : ResourceData) (c : InitConfiguration)
    (st : Smap) (prov : String)
    (hp : getOkS d "cloud.0.provider" = some prov) (hne : prov.length > 0) :
    ((cloudStep d c st).1.nodeRegistration.kubeletExtraArgs.resolve
        (cloudStep d c st).2).get? "cloud-provider" = some "external" ∧
    olook (cloudStep d c st).1.clusterConfiguration.apiServer.extraArgs
      "cloud-provider" = some "external" ∧
    olook (cloudStep d c st).1.clusterConfiguration.controllerManager.extraArgs
      "cloud-provider" = some "external" ∧
    (∀ k, k ≠ "cloud-provider" →
      ((cloudStep d c st).1.nodeRegistration.kubeletExtraArgs.resolve
          (cloudStep d c st).2).get? k =
        (c.nodeRegistration.kubeletExtraArgs.resolve st).get? k ∧
      olook (cloudStep d c st).1.clusterConfiguration.apiServer.extraArgs k =
        olook c.clusterConfiguration.apiServer.extraArgs k ∧
      olook (cloudStep d c st).1.clusterConfiguration.controllerManager.extraArgs k =
        olook c.clusterConfiguration.controllerManager.extraArgs k) ∧
    (cloudStep d c st).1.clusterConfiguration.scheduler =
      c.clusterConfiguration.scheduler := by
  refine ⟨?_, ?_, ?_, ?_, ?_⟩
  · unfold cloudStep
    simp only [hp, if_pos hne]
    cases href : c.nodeRegistration.kubeletExtraArgs with
    | global =>
        simp [kubeletWrite, KRef.write, href, KRef.resolve, Smap.get?_set_self]
    | owned m =>
        simp [kubeletWrite, KRef.write, href, KRef.resolve, Smap.get?_set_self]
  · unfold cloudStep
    simp only [hp, if_pos hne]
    simp [kubeletWrite, olook, Smap.get?_set_self]
  · unfold cloudStep
    simp only [hp, if_pos hne]
    simp [kubeletWrite, olook, Smap.get?_set_self]
  · intro k hk
    refine ⟨cloudStep_resolved_ne d c st k hk, ?_, ?_⟩
    · unfold cloudStep
      simp only [hp, if_pos hne]
      cases hx : c.clusterConfiguration.apiServer.extraArgs with
      | none =>
          simp [kubeletWrite, olook, hx,
            Smap.get?_set_ne _ k _ _ (fun e => hk e.symm), Smap.get?]
          exact fun e => hk e.symm
      | some m =>
          simp [kubeletWrite, olook, hx,
            Smap.get?_set_ne _ k _ _ (fun e => hk e.symm)]
    · unfold cloudStep
      simp only [hp, if_pos hne]
      cases hx : c.clusterConfiguration.controllerManager.extraArgs with
      | none =>
          simp [kubeletWrite, olook, hx,
            Smap.get?_set_ne _ k _ _ (fun e => hk e.symm), Smap.get?]
          exact fun e => hk e.symm
      | some m =>
          simp [kubeletWrite, olook, hx,
            Smap.get?_set_ne _ k _ _ (fun e => hk e.symm)]
  · obtain ⟨_, s2, _⟩ := cloudStep_frame d c st
    exact s2

theorem C3_cloud_provider_fanout_witness :
    ((cloudStep dC3w cC3 []).1.nodeRegistration.kubeletExtraArgs.resolve
        (cloudStep dC3w cC3 []).2).get? "cloud-provider" = some "external" ∧
    ((cloudStep dC3w cC3 []).1.nodeRegistration.kubeletExtraArgs.resolve
        (cloudStep dC3w cC3 []).2).get? "node-ip" = some "10.0.0.5" ∧
    olook (cloudStep dC3w cC3 []).1.clusterConfiguration.apiServer.extraArgs
      "audit-log-path" = some "/tmp/a" := by
  have h := C3_cloud_provider_fanout dC3w cC3 [] "aws" (by decide) (by decide)
  refine ⟨h.1, ?_, ?_⟩
  · rw [(h.2.2.2.1 "node-ip" (by decide)).1]
    decide
  · rw [(h.2.2.2.1 "audit-log-path" (by decide)).2.1]
    decide

end KubeadmInit

namespace KubeadmInit

/-- Claim C9: each of the four per-component extra-args sub-mappings, when
present, replaces the corresponding target extra-args mapping wholesale
(it equals the source sub-mapping exactly); when absent, the target mapping
keeps its prior value. -/
theorem C9_extra_args_wholesale_replacement (d : ResourceData)
    (c : InitConfiguration) (hb : d.blocks "runtime.0.extra_args.0" = true) :
    (∀ m, getOkM d "runtime.0.extra_args.0.api_server" = some m →
      (extraArgsStep d c).clusterConfiguration.apiServer.extraArgs = some m) ∧
    (getOkM d "runtime.0.extra_args.0.api_server" = none →
      (extraArgsStep d c).clusterConfiguration.apiServer.extraArgs =
        c.clusterConfiguration.apiServer.extraArgs) ∧
    (∀ m, getOkM d "runtime.0.extra_args.0.controller_manager" = some m →
      (extraArgsStep d c).clusterConfiguration.controllerManager.extraArgs = some m) ∧
    (getOkM d "runtime.0.extra_args.0.controller_manager" = none →
      (extraArgsStep d c).clusterConfiguration.controllerManager.extraArgs =
        c.clusterConfiguration.controllerManager.extraArgs) ∧
    (∀ m, getOkM d "runtime.0.extra_args.0.scheduler" = some m →
      (extraArgsStep d c).clusterConfiguration.scheduler.extraArgs = some m) ∧
    (getOkM d "runtime.0.extra_args.0.scheduler" = none →
      (extraArgsStep d c).clusterConfiguration.scheduler.extraArgs =
        c.clusterConfiguration.scheduler.extraArgs) ∧
    (∀ m, getOkM d "runtime.0.extra_args.0.kubelet" = some m →
      (extraArgsStep d c).nodeRegistration.kubeletExtraArgs = .owned m) ∧
    (getOkM d "runtime.0.extra_args.0.kubelet" = none →
      (extraArgsStep d c).nodeRegistration.kubeletExtraArgs =
        c.nodeRegistration.kubeletExtraArgs) := by
  unfold extraArgsStep
  rw [hb]
  simp only [if_true]
  obtain ⟨k1, _, _, _⟩ :=
    kubeletArgsPart_frame d (schedArgsPart d (cmArgsPart d (apiArgsPart d c)))
  obtain ⟨s1, s2, _, _, _, _, _, _, s9, _⟩ :=
    schedArgsPart_frame d (cmArgsPart d (apiArgsPart d c))
  obtain ⟨m1, m2, _, _, _, _, _, _, m9, _⟩ := cmArgsPart_frame d (apiArgsPart d c)
  obtain ⟨_, a2, a3, _, _, _, _, _, _, a10, _⟩ := apiArgsPart_frame d c
  refine ⟨?_, ?_, ?_, ?_, ?_, ?_, ?_, ?_⟩
  · intro m hm
    rw [k1, s1, m1, apiArgsPart_set d c m hm]
  · intro hm
    rw [k1, s1, m1, apiArgsPart_id d c hm]
  · intro m hm
    rw [k1, s2, cmArgsPart_set d _ m hm]
  · intro hm
    rw [k1, s2, cmArgsPart_id d _ hm, a2]
  · intro m hm
    rw [k1, schedArgsPart_set d _ m hm]
  · intro hm
    rw [k1, schedArgsPart_id d _ hm, m2, a3]
  · intro m hm
    rw [kubeletArgsPart_set d _ m hm]
  · intro hm
    rw [kubeletArgsPart_id d _ hm, s9, m9, a10]

end KubeadmInit

namespace KubeadmInit

theorem C9_extra_args_wholesale_replacement_witness :
    (extraArgsStep dC9w cC3).clusterConfiguration.apiServer.extraArgs = some [("a", "1")] ∧
    (extraArgsStep dC9w cC3).clusterConfiguration.controllerManager.extraArgs = some [("b", "2")] ∧
    (extraArgsStep dC9w cC3).clusterConfiguration.scheduler.extraArgs = some [("c", "3")] ∧
    (extraArgsStep dC9w cC3).nodeRegistration.kubeletExtraArgs = .owned [("k", "4")] := by
  have h := C9_extra_args_wholesale_replacement dC9w cC3 (by decide)
  exact ⟨h.1 _ (by decide), h.2.2.1 _ (by decide), h.2.2.2.2.1 _ (by decide),
    h.2.2.2.2.2.2.1 _ (by decide)⟩

/-- Claim C5: a present runtime-engine name is looked up in the fixed
engine-to-socket table; a hit stores the socket as the node's runtime
socket and sets the kubelet extra-arg `container-runtime-endpoint` to
`unix://` followed by the socket; a miss fails the derivation with an
unsupported-runtime-engine error naming the offending value. -/
theorem C5_runtime_engine_lookup (g : Globals)
    (nbt : String → Except GoError BootstrapToken) (d : ResourceData)
    (token : String) (c : InitConfiguration) (st : Smap) (eng : String)
    (he : getOkS d "runtime.0.engine" = some eng) :
    (∀ socket, g.defCriSocket.get? eng = some socket →
      ∃ c' st', engineStep g d c st = .ok (c', st') ∧
        c'.nodeRegistration.criSocket = socket ∧
        (c'.nodeRegistration.kubeletExtraArgs.resolve st').get?
          "container-runtime-endpoint" = some ("unix://" ++ socket)) ∧
    (g.defCriSocket.get? eng = none →
      engineStep g d c st = .error (.unknownRuntimeEngine eng) ∧
      (d.blocks "runtime.0" = true →
        ∀ r, dataSourceToInitConfig g nbt d token ≠ .ok r)) := by
  constructor
  · intro socket hs
    obtain ⟨c', st', hstep, hcs, hres, _, _⟩ := engineStep_found g d c st eng socket he hs
    exact ⟨c', st', hstep, hcs, by rw [hres, Smap.get?_set_self]⟩
  · intro hs
    refine ⟨engineStep_notfound g d c st eng he hs, ?_⟩
    intro hb r hok
    obtain ⟨c9, st9⟩ := r
    obtain ⟨c8, hpre, _⟩ := dataSource_ok g nbt d token c9 st9 hok
    obtain ⟨c4, st4, hp4, _, _⟩ := prePipeline_ok g d c8 st9 hpre
    obtain ⟨c2, st2, hp2, hrt⟩ := pipe4_ok g d c4 st4 hp4
    unfold runtimeStep at hrt
    rw [hb] at hrt
    simp only [if_true] at hrt
    rw [engineStep_notfound g d (imagesStep d c2) st2 eng he hs] at hrt
    exact Except.noConfusion hrt

theorem C5_runtime_engine_lookup_witness :
    engineStep gEx dC5w baseInitConfig [] =
      .error (.unknownRuntimeEngine "podman-typo") ∧
    (∀ r, dataSourceToInitConfig gEx nbt0 dC5w "" ≠ .ok r) := by
  have h := (C5_runtime_engine_lookup gEx nbt0 dC5w "" baseInitConfig [] "podman-typo"
    (by decide)).2 (by decide)
  exact ⟨h.1, h.2 (by decide)⟩

end KubeadmInit

namespace KubeadmInit

theorem length_pos_of_ne_empty (s : String) (h : s ≠ "") : 0 < s.length := by
  cases s with
  | mk l =>
      cases l with
      | nil => exact absurd rfl h
      | cons a as => simp [String.length]

theorem tokenStep_nonempty_ok (nbt : String → Except GoError BootstrapToken)
    (token : String) (c : InitConfiguration) (t : BootstrapToken)
    (h : token ≠ "") (hn : nbt token = .ok t) :
    tokenStep nbt token c =
      .ok { c with bootstrapTokens := [{ t with expires := none }] } := by
  unfold tokenStep
  rw [if_pos (length_pos_of_ne_empty token h)]
  simp only [hn]

theorem tokenStep_nonempty_err (nbt : String → Except GoError BootstrapToken)
    (token : String) (c : InitConfiguration) (e : GoError)
    (h : token ≠ "") (hn : nbt token = .error e) :
    tokenStep nbt token c = .error e := by
  unfold tokenStep
  rw [if_pos (length_pos_of_ne_empty token h)]
  simp only [hn]

/-- Claim C4: an empty token adds no credential (the bootstrap-credential
list stays at the base default, the empty list); a non-empty token whose
construction fails aborts the derivation with the propagated error and no
record; a non-empty token whose construction succeeds yields exactly one
stored credential whose expiry is cleared to never-expires, whatever expiry
the constructor set. -/
theorem C4_bootstrap_credential (g : Globals)
    (nbt : String → Except GoError BootstrapToken) (d : ResourceData)
    (token : String) (c : InitConfiguration) (st : Smap) :
    (token = "" → dataSourceToInitConfig g nbt d token = .ok (c, st) →
      c.bootstrapTokens = []) ∧
    (∀ t, token ≠ "" → nbt token = .ok t →
      dataSourceToInitConfig g nbt d token = .ok (c, st) →
      c.bootstrapTokens = [{ t with expires := none }]) ∧
    (∀ e, token ≠ "" → nbt token = .error e →
      dataSourceToInitConfig g nbt d token ≠ .ok (c, st) ∧
      (prePipeline g d = .ok (c, st) →
        dataSourceToInitConfig g nbt d token = .error e)) := by
  refine ⟨?_, ?_, ?_⟩
  · intro htok hok
    subst htok
    obtain ⟨c8, hpre, ht⟩ := dataSource_ok g nbt d "" c st hok
    rw [tokenStep_empty nbt c8] at ht
    injection ht with ht
    rw [← ht]
    exact prePipeline_tokens g d c8 st hpre
  · intro t htok hn hok
    obtain ⟨c8, hpre, ht⟩ := dataSource_ok g nbt d token c st hok
    rw [tokenStep_nonempty_ok nbt token c8 t htok hn] at ht
    injection ht with ht
    rw [← ht]
  · intro e htok hn
    constructor
    · intro hok
      obtain ⟨c8, hpre, ht⟩ := dataSource_ok g nbt d token c st hok
      rw [tokenStep_nonempty_err nbt token c8 e htok hn] at ht
      exact Except.noConfusion ht
    · intro hpre
      unfold dataSourceToInitConfig
      rw [hpre]
      simp only
      rw [tokenStep_nonempty_err nbt token c e htok hn]

theorem C4_bootstrap_credential_witness :
    dataSourceToInitConfig gEx nbt0 dEmpty "tok" = .ok (cW4, []) ∧
    cW4.bootstrapTokens = [{ token := "tok", expires := none }] := by
  have hok : dataSourceToInitConfig gEx nbt0 dEmpty "tok" = .ok (cW4, []) := rfl
  refine ⟨hok, ?_⟩
  exact (C4_bootstrap_credential gEx nbt0 dEmpty "tok" cW4 []).2.1
    { token := "tok", expires := some 7 } (by decide) rfl hok

end KubeadmInit

namespace KubeadmInit

/-- Claim C1 (code bug): the DNS-domain validation regex on line 89 is not
anchored, and Go `MatchString` looks for a match anywhere in the string, so
the non-DNS-1123 domain `My_Cluster` (which merely contains the matching
substring `y`) is accepted and stored verbatim instead of failing with the
invalid-DNS-domain error that the error message on line 91 promises. -/
theorem C1_unanchored_regex_accepts_invalid_domain :
    (okVal? (dataSourceToInitConfig gEx nbt0 dC1 "")).map
      (fun r => r.1.clusterConfiguration.networking.dnsDomain) =
      some "My_Cluster" := by
  decide

/-- Claim C2 (code bug): the base record's kubelet extra-args map aliases
the package-level `common.DefKubeletSettings` map (line 43), and the
`resolv-conf` write on line 100 goes through that alias, so a derivation
run mutates the process-wide default map and a later run on a different
source tree observes the first run's write. -/
theorem C2_derivation_mutates_global_defaults :
    (okVal? (dataSourceToInitConfig gEx nbt0 dC2a "")).map (fun r => r.2) =
      some [("resolv-conf", "/run/netconfig/resolv.conf")] ∧
    gEx.defKubeletSettings = [] ∧
    (okVal? (dataSourceToInitConfig gEx nbt0 dEmpty "")).map
      (fun r => (r.1.nodeRegistration.kubeletExtraArgs.resolve r.2).get?
        "resolv-conf") = some none ∧
    (okVal? (dataSourceToInitConfig
        { gEx with defKubeletSettings := [("resolv-conf", "/run/netconfig/resolv.conf")] }
        nbt0 dEmpty "")).map
      (fun r => (r.1.nodeRegistration.kubeletExtraArgs.resolve r.2).get?
        "resolv-conf") = some (some "/run/netconfig/resolv.conf") := by
  refine ⟨by decide, by decide, by decide, by decide⟩

/-- Claim C7 counterexample: the internal endpoint `10.0.0.5:-1` has the
port substring `-1`, which is not a non-negative integer, yet derivation
succeeds and stores bind port `-1` (Go `strconv.Atoi` accepts signed
integers), contradicting the claim that such inputs must fail. -/
theorem C7_counterexample_negative_port_accepted :
    (okVal? (dataSourceToInitConfig gEx nbt0 dC7 "")).map
      (fun r => r.1.localAPIEndpoint.bindPort) = some (-1) := by
  decide

/-- Claim C8 counterexample: a tree supplying both an embedded-datastore
image repository and an external endpoint list yields a record holding
BOTH datastore variants at once (lines 110-121 set `Local`, lines 184-191
set `External` without clearing `Local`). -/
theorem C8_counterexample_both_variants_present :
    (okVal? (dataSourceToInitConfig gEx nbt0 dC8 "")).map
      (fun r => (r.1.clusterConfiguration.etcd.localE.isSome,
                 r.1.clusterConfiguration.etcd.ext.isSome)) =
      some (true, true) := by
  decide

end KubeadmInit

namespace KubeadmInit

theorem bindPortPart_ok_val (port : String) (c : InitConfiguration) (v : Int)
    (hne : port ≠ "") (ha : goAtoi port = .ok v) :
    bindPortPart port c =
      .ok { c with localAPIEndpoint :=
          { c.localAPIEndpoint with bindPort := int32ofInt v } } := by
  unfold bindPortPart
  rw [if_pos hne]
  simp only [ha]

theorem bindPortPart_err (port : String) (c : InitConfiguration) (e : GoError)
    (hne : port ≠ "") (ha : goAtoi port = .error e) :
    bindPortPart port c = .error e := by
  unfold bindPortPart
  rw [if_pos hne]
  simp only [ha]

theorem apiStep_err_port (g : Globals) (d : ResourceData) (c : InitConfiguration)
    (e : GoError) (host port internalAddr : String)
    (hb : d.blocks "api.0" = true)
    (hi : getOkS d "api.0.internal" = some internalAddr)
    (hsp : splitHostPort internalAddr = .ok (host, port))
    (hne : port ≠ "") (ha : goAtoi port = .error e) :
    apiStep g d c = .error e := by
  unfold apiStep apiInternalPart
  rw [hb]
  simp only [if_true, hi, hsp, bindPortPart_err port _ e hne ha]

theorem apiStep_ok_bindPort (g : Globals) (d : ResourceData)
    (c c1 : InitConfiguration) (v : Int) (host port internalAddr : String)
    (hb : d.blocks "api.0" = true)
    (hi : getOkS d "api.0.internal" = some internalAddr)
    (hsp : splitHostPort internalAddr = .ok (host, port))
    (hne : port ≠ "") (ha : goAtoi port = .ok v)
    (h : apiStep g d c = .ok c1) :
    c1.localAPIEndpoint.bindPort = int32ofInt v := by
  unfold apiStep apiInternalPart at h
  rw [hb] at h
  simp only [if_true, hi, hsp, bindPortPart_ok_val port _ v hne ha] at h
  injection h with h
  obtain ⟨_, _, _, _, _, _, _, _, n9, _, _⟩ := apiAltNamesPart_frame d
    (appendCertSAN
      { apiExternalPart g d c with localAPIEndpoint :=
          { (apiExternalPart g d c).localAPIEndpoint with
              advertiseAddress := host, bindPort := int32ofInt v } } [host])
  rw [← h, n9]
  obtain ⟨_, _, _, _, _, _, _, _, ac9, _, _⟩ := appendCertSAN_frame
    { apiExternalPart g d c with localAPIEndpoint :=
        { (apiExternalPart g d c).localAPIEndpoint with
            advertiseAddress := host, bindPort := int32ofInt v } } [host]
  rw [ac9]

end KubeadmInit

namespace KubeadmInit

/-- Claim C7 (amended): for a present internal endpoint whose port
substring is present and non-empty, derivation fails with the propagated
parse error exactly when the substring does not parse as a (possibly
signed) decimal integer under Go `strconv.Atoi`; when it parses — and this
includes negative integers such as `-1` — derivation proceeds and any
returned record stores the parsed value truncated to 32 bits as the bind
port. -/
theorem C7_port_parse_amended (g : Globals)
    (nbt : String → Except GoError BootstrapToken) (d : ResourceData)
    (token : String) (host port internalAddr : String)
    (hb : d.blocks "api.0" = true)
    (hi : getOkS d "api.0.internal" = some internalAddr)
    (hsp : splitHostPort internalAddr = .ok (host, port))
    (hne : port ≠ "") :
    (∀ e, goAtoi port = .error e →
      dataSourceToInitConfig g nbt d token = .error e) ∧
    (∀ v c st, goAtoi port = .ok v →
      dataSourceToInitConfig g nbt d token = .ok (c, st) →
      c.localAPIEndpoint.bindPort = int32ofInt v) := by
  constructor
  · intro e ha
    exact dataSource_err_api g nbt d token e
      (apiStep_err_port g d baseInitConfig e host port internalAddr hb hi hsp hne ha)
  · intro v c st ha hok
    obtain ⟨c8, hpre, ht⟩ := dataSource_ok g nbt d token c st hok
    obtain ⟨c4, st4, hp4, hc8, hst8⟩ := prePipeline_ok g d c8 st hpre
    obtain ⟨c2, st2, hp2, hrt⟩ := pipe4_ok g d c4 st4 hp4
    obtain ⟨c1, hap, hnw⟩ := pipe2_ok g d c2 st2 hp2
    have hbp := apiStep_ok_bindPort g d baseInitConfig c1 v host port internalAddr
      hb hi hsp hne ha hap
    obtain ⟨_, tk2, _⟩ := tokenStep_frame nbt token c8 c ht
    obtain ⟨_, _, _, _, _, _, _, _, e9, _, _⟩ :=
      etcdStep_frame d (versionStep d
        (cniStep d (cloudStep d c4 st4).1 (cloudStep d c4 st4).2).1)
    obtain ⟨_, _, _, _, _, _, _, v8, _, _⟩ :=
      versionStep_frame d (cniStep d (cloudStep d c4 st4).1 (cloudStep d c4 st4).2).1
    obtain ⟨_, cn2, _, _⟩ := cniStep_frame d (cloudStep d c4 st4).1 (cloudStep d c4 st4).2
    obtain ⟨_, _, _, _, _, _, _, cl8, _, _⟩ := cloudStep_frame d c4 st4
    obtain ⟨_, _, _, _, _, _, r7, _⟩ :=
      runtimeStep_frame g d (imagesStep d c2) c4 st2 st4 hrt
    obtain ⟨_, _, _, _, _, _, i7, _, _⟩ := imagesStep_frame d c2
    obtain ⟨_, _, _, _, _, _, _, n8, _, _⟩ :=
      networkStep_frame g d c1 c2 g.defKubeletSettings st2 hnw
    rw [tk2, hc8, e9, v8, cn2, cl8, r7, i7, n8]
    exact hbp

end KubeadmInit

namespace KubeadmInit

theorem C7_port_parse_amended_witness :
    dataSourceToInitConfig gEx nbt0 dC7w "" = .error (.atoiError "x9") := by
  exact (C7_port_parse_amended gEx nbt0 dC7w "" "10.0.0.5" "x9" "10.0.0.5:x9"
    (by decide) (by decide) rfl (by decide)).1 (.atoiError "x9") rfl

end KubeadmInit

namespace KubeadmInit

theorem imagesStep_ext_none (d : ResourceData) (c : InitConfiguration)
    (h : c.clusterConfiguration.etcd.ext = none) :
    (imagesStep d c).clusterConfiguration.etcd.ext = none := by
  unfold imagesStep
  repeat' split
  all_goals simp_all

/-- Claim C8 (amended): the two datastore variants are mutually exclusive
whenever the source tree does not supply both sources: without a non-empty
embedded-datastore image repo/tag the local variant is absent, and without
an endpoint list the external variant is absent; but when the tree
supplies both, the returned record holds both variants at once (the
external write does not clear the local one). -/
theorem C8_variant_exclusivity_amended (g : Globals)
    (nbt : String → Except GoError BootstrapToken) (d : ResourceData)
    (token : String) (c : InitConfiguration) (st : Smap)
    (hok : dataSourceToInitConfig g nbt d token = .ok (c, st)) :
    (¬ (d.blocks "images.0" = true ∧
        (getS d "images.0.etcd_version" ≠ "" ∨ getS d "images.0.etcd_repo" ≠ "")) →
      c.clusterConfiguration.etcd.localE = none) ∧
    (getOkL d "etcd.0.endpoints" = none →
      c.clusterConfiguration.etcd.ext = none) ∧
    (d.blocks "images.0" = true →
      (getS d "images.0.etcd_version" ≠ "" ∨ getS d "images.0.etcd_repo" ≠ "") →
      c.clusterConfiguration.etcd.localE =
        some { imageMeta := { imageRepository := getS d "images.0.etcd_repo",
                              imageTag := getS d "images.0.etcd_version" } }) ∧
    (d.blocks "etcd.0" = true → ∀ eps, getOkL d "etcd.0.endpoints" = some eps →
      ∃ x, c.clusterConfiguration.etcd.ext = some x ∧ x.endpoints = eps) := by
  obtain ⟨c8, hpre, ht⟩ := dataSource_ok g nbt d token c st hok
  obtain ⟨c4, st4, hp4, hc8, hst8⟩ := prePipeline_ok g d c8 st hpre
  obtain ⟨c2, st2, hp2, hrt⟩ := pipe4_ok g d c4 st4 hp4
  obtain ⟨c1, hap, hnw⟩ := pipe2_ok g d c2 st2 hp2
  obtain ⟨_, _, a3, _, _, _, _, _, _⟩ := apiStep_frame g d baseInitConfig c1 hap
  obtain ⟨_, _, _, _, n5, _, _, _, _, _⟩ :=
    networkStep_frame g d c1 c2 g.defKubeletSettings st2 hnw
  obtain ⟨_, _, _, r4, _, _, _, _⟩ :=
    runtimeStep_frame g d (imagesStep d c2) c4 st2 st4 hrt
  obtain ⟨_, _, _, _, cl5, _, _, _, _, _⟩ := cloudStep_frame d c4 st4
  obtain ⟨cn1, _, _, _⟩ := cniStep_frame d (cloudStep d c4 st4).1 (cloudStep d c4 st4).2
  obtain ⟨_, _, _, _, _, v6, _, _, _, _⟩ :=
    versionStep_frame d (cniStep d (cloudStep d c4 st4).1 (cloudStep d c4 st4).2).1
  obtain ⟨tk1, _, _⟩ := tokenStep_frame nbt token c8 c ht
  obtain ⟨_, _, _, _, _, e6, _, _, _, _, _⟩ :=
    etcdStep_frame d (versionStep d
      (cniStep d (cloudStep d c4 st4).1 (cloudStep d c4 st4).2).1)
  have hc2etcd : c2.clusterConfiguration.etcd = Etcd.mk none none := by
    rw [n5, a3]
    rfl
  have hA : c.clusterConfiguration.etcd.localE =
      (imagesStep d c2).clusterConfiguration.etcd.localE := by
    rw [tk1, hc8, e6, v6]
    rw [show (cniStep d (cloudStep d c4 st4).1
      (cloudStep d c4 st4).2).1.clusterConfiguration.etcd.localE =
      (cloudStep d c4 st4).1.clusterConfiguration.etcd.localE from by rw [cn1]]
    rw [cl5, r4]
  refine ⟨?_, ?_, ?_, ?_⟩
  · intro hnot
    rw [hA]
    by_cases hbl : d.blocks "images.0" = true
    · have hor : ¬ (getS d "images.0.etcd_version" ≠ "" ∨ getS d "images.0.etcd_repo" ≠ "") :=
        fun hor => hnot ⟨hbl, hor⟩
      rw [imagesStep_etcd_pres d c2 hor, hc2etcd]
    · rw [imagesStep_id d c2 (Bool.not_eq_true _ ▸ hbl), hc2etcd]
  · intro hnone
    have hAext : (imagesStep d c2).clusterConfiguration.etcd.ext = none :=
      imagesStep_ext_none d c2 (by rw [hc2etcd])
    have hcext : c.clusterConfiguration.etcd.ext = none := by
      rw [tk1, hc8, etcdStep_ext_pres d _ hnone, v6]
      rw [show (cniStep d (cloudStep d c4 st4).1
        (cloudStep d c4 st4).2).1.clusterConfiguration.etcd.ext =
        (cloudStep d c4 st4).1.clusterConfiguration.etcd.ext from by rw [cn1]]
      rw [cl5, r4, hAext]
    exact hcext
  · intro hbl hor
    rw [hA, imagesStep_etcd_set d c2 hbl hor]
  · intro hbl eps heps
    obtain ⟨x, hx, hxe⟩ := etcdStep_ext_set d
      (versionStep d (cniStep d (cloudStep d c4 st4).1 (cloudStep d c4 st4).2).1)
      eps hbl heps
    refine ⟨x, ?_, hxe⟩
    rw [tk1, hc8, hx]

end KubeadmInit

namespace KubeadmInit

theorem C8_variant_exclusivity_amended_witness :
    dataSourceToInitConfig gEx nbt0 dC8w "" = .ok (cW8, []) ∧
    cW8.clusterConfiguration.etcd.localE = none ∧
    cW8.clusterConfiguration.etcd.ext = some { endpoints := ["http://e:2379"] } := by
  refine ⟨rfl, (C8_variant_exclusivity_amended gEx nbt0 dC8w "" cW8 [] rfl).1 (by decide), ?_⟩
  obtain ⟨x, hx, hxe⟩ := (C8_variant_exclusivity_amended gEx nbt0 dC8w "" cW8 [] rfl).2.2.2
    (by decide) ["http://e:2379"] (by decide)
  cases x with
  | mk eps =>
      cases hxe
      exact hx

end KubeadmInit

namespace KubeadmInit

/-- Claim C10: with a known runtime engine and a present kubelet extra-args
sub-mapping lacking `container-runtime-endpoint`, the later wholesale
kubelet replacement discards the synthesized endpoint entry — the final
kubelet extra-args mapping has no `container-runtime-endpoint` key — while
the node's runtime-socket field still holds the engine table's socket. -/
theorem C10_kubelet_replacement_discards_endpoint (g : Globals)
    (nbt : String → Except GoError BootstrapToken) (d : ResourceData)
    (token : String) (c : InitConfiguration) (st : Smap)
    (eng socket : String) (m : Smap)
    (hb : d.blocks "runtime.0" = true)
    (he : getOkS d "runtime.0.engine" = some eng)
    (hs : g.defCriSocket.get? eng = some socket)
    (hbe : d.blocks "runtime.0.extra_args.0" = true)
    (hm : getOkM d "runtime.0.extra_args.0.kubelet" = some m)
    (hnokey : m.get? "container-runtime-endpoint" = none)
    (hok : dataSourceToInitConfig g nbt d token = .ok (c, st)) :
    (c.nodeRegistration.kubeletExtraArgs.resolve st).get?
      "container-runtime-endpoint" = none ∧
    c.nodeRegistration.criSocket = socket := by
  obtain ⟨c8, hpre, ht⟩ := dataSource_ok g nbt d token c st hok
  obtain ⟨c4, st4, hp4, hc8, hst8⟩ := prePipeline_ok g d c8 st hpre
  obtain ⟨c2, st2, hp2, hrt⟩ := pipe4_ok g d c4 st4 hp4
  unfold runtimeStep at hrt
  rw [hb] at hrt
  simp only [if_true] at hrt
  obtain ⟨ce, ste, hstep, hcs, _, _, _⟩ :=
    engineStep_found g d (imagesStep d c2) st2 eng socket he hs
  rw [hstep] at hrt
  injection hrt with hrt
  have hc4 := congrArg Prod.fst hrt
  have hst4 := congrArg Prod.snd hrt
  simp only at hc4 hst4
  have hkub : c4.nodeRegistration.kubeletExtraArgs = .owned m := by
    rw [← hc4]
    unfold extraArgsStep
    rw [hbe]
    simp only [if_true]
    exact kubeletArgsPart_set d _ m hm
  have hc4cri : c4.nodeRegistration.criSocket = socket := by
    rw [← hc4]
    unfold extraArgsStep
    rw [hbe]
    simp only [if_true]
    obtain ⟨_, _, k3, _⟩ :=
      kubeletArgsPart_frame d (schedArgsPart d (cmArgsPart d (apiArgsPart d ce)))
    obtain ⟨_, _, _, _, _, _, _, _, s9, _⟩ :=
      schedArgsPart_frame d (cmArgsPart d (apiArgsPart d ce))
    obtain ⟨_, _, _, _, _, _, _, _, m9, _⟩ := cmArgsPart_frame d (apiArgsPart d ce)
    obtain ⟨_, _, _, _, _, _, _, _, _, a10, _⟩ := apiArgsPart_frame d ce
    rw [k3, s9, m9, a10, hcs]
  obtain ⟨_, _, tk3⟩ := tokenStep_frame nbt token c8 c ht
  obtain ⟨_, _, _, _, _, _, _, _, _, e10, _⟩ :=
    etcdStep_frame d (versionStep d
      (cniStep d (cloudStep d c4 st4).1 (cloudStep d c4 st4).2).1)
  obtain ⟨_, _, _, _, _, _, _, _, v9, _⟩ :=
    versionStep_frame d (cniStep d (cloudStep d c4 st4).1 (cloudStep d c4 st4).2).1
  have hnodereg : c.nodeRegistration =
      (cniStep d (cloudStep d c4 st4).1 (cloudStep d c4 st4).2).1.nodeRegistration := by
    rw [tk3, hc8, e10, v9]
  constructor
  · rw [hnodereg, hst8]
    rw [cniStep_resolved_ne d (cloudStep d c4 st4).1 (cloudStep d c4 st4).2
      "container-runtime-endpoint" (by decide) (by decide)]
    rw [cloudStep_resolved_ne d c4 st4 "container-runtime-endpoint" (by decide)]
    rw [hkub]
    exact hnokey
  · rw [hnodereg]
    obtain ⟨_, _, cn3, _⟩ :=
      cniStep_frame d (cloudStep d c4 st4).1 (cloudStep d c4 st4).2
    obtain ⟨_, _, _, _, _, _, _, _, cl9, _⟩ := cloudStep_frame d c4 st4
    rw [cn3, cl9, hc4cri]

theorem C10_kubelet_replacement_discards_endpoint_witness :
    dataSourceToInitConfig gEx nbt0 dC10w "" = .ok (cW10, stW10) ∧
    (cW10.nodeRegistration.kubeletExtraArgs.resolve stW10).get?
      "container-runtime-endpoint" = none ∧
    cW10.nodeRegistration.criSocket = "/var/run/dockershim.sock" := by
  refine ⟨rfl, ?_⟩
  exact C10_kubelet_replacement_discards_endpoint gEx nbt0 dC10w "" cW10 stW10
    "docker" "/var/run/dockershim.sock" [("node-ip", "10.0.0.5")]
    (by decide) (by decide) (by decide) (by decide) (by decide) (by decide) rfl

end KubeadmInit

namespace KubeadmInit

theorem apiExternalPart_id (g : Globals) (d : ResourceData) (c : InitConfiguration)
    (h : getOkS d "api.0.external" = none) : apiExternalPart g d c = c := by
  unfold apiExternalPart
  simp only [h]

theorem apiInternalPart_id (d : ResourceData) (c : InitConfiguration)
    (h : getOkS d "api.0.internal" = none) : apiInternalPart d c = .ok c := by
  unfold apiInternalPart
  simp only [h]

theorem apiStep_pres_localAPI (g : Globals) (d : ResourceData)
    (c c1 : InitConfiguration) (hi : getOkS d "api.0.internal" = none)
    (h : apiStep g d c = .ok c1) :
    c1.localAPIEndpoint = c.localAPIEndpoint := by
  unfold apiStep at h
  split at h
  · rw [apiInternalPart_id d _ hi] at h
    injection h with h
    obtain ⟨_, _, _, _, _, _, _, _, n9, _, _⟩ :=
      apiAltNamesPart_frame d (apiExternalPart g d c)
    obtain ⟨_, _, _, _, _, _, _, e8, _, _⟩ := apiExternalPart_frame g d c
    rw [← h, n9, e8]
  · injection h with h
    rw [← h]

theorem apiStep_pres_cpe (g : Globals) (d : ResourceData)
    (c c1 : InitConfiguration) (he : getOkS d "api.0.external" = none)
    (h : apiStep g d c = .ok c1) :
    c1.clusterConfiguration.controlPlaneEndpoint =
      c.clusterConfiguration.controlPlaneEndpoint := by
  unfold apiStep at h
  split at h
  · rw [apiExternalPart_id g d c he] at h
    cases hi : apiInternalPart d c with
    | error e => simp only [hi] at h; exact Except.noConfusion h
    | ok c5 =>
        simp only [hi] at h
        injection h with h
        obtain ⟨_, _, _, _, _, _, _, i8, _, _⟩ := apiInternalPart_frame d c c5 hi
        obtain ⟨_, _, _, _, _, _, _, n8, _, _, _⟩ := apiAltNamesPart_frame d c5
        rw [← h, n8, i8]
  · injection h with h
    rw [← h]

end KubeadmInit

namespace KubeadmInit

/-- Claim C6: a target field whose feeding source path is absent keeps the
base record's value — in particular, with the images block present but the
kube-repository path absent, the image-repository field equals the base
record's image-repository (the code writes the zero value `""`, which is
exactly the base value), and likewise for the other optional paths. -/
theorem C6_absent_paths_preserve_base (g : Globals)
    (nbt : String → Except GoError BootstrapToken) (d : ResourceData)
    (token : String) (c : InitConfiguration) (st : Smap)
    (hok : dataSourceToInitConfig g nbt d token = .ok (c, st)) :
    (d.blocks "images.0" = true → d.strings "images.0.kube_repo" = none →
      c.clusterConfiguration.imageRepository =
        baseInitConfig.clusterConfiguration.imageRepository) ∧
    (d.blocks "images.0" = false →
      c.clusterConfiguration.imageRepository =
        baseInitConfig.clusterConfiguration.imageRepository) ∧
    (d.strings "network.0.dns.0.domain" = none →
      c.clusterConfiguration.networking.dnsDomain =
        baseInitConfig.clusterConfiguration.networking.dnsDomain) ∧
    (d.strings "network.0.pods" = none →
      c.clusterConfiguration.networking.podSubnet =
        baseInitConfig.clusterConfiguration.networking.podSubnet) ∧
    (d.strings "network.0.services" = none →
      c.clusterConfiguration.networking.serviceSubnet =
        baseInitConfig.clusterConfiguration.networking.serviceSubnet) ∧
    (d.strings "version" = none →
      c.clusterConfiguration.kubernetesVersion =
        baseInitConfig.clusterConfiguration.kubernetesVersion) ∧
    (d.strings "runtime.0.engine" = none →
      c.nodeRegistration.criSocket =
        baseInitConfig.nodeRegistration.criSocket) ∧
    (d.strings "api.0.internal" = none →
      c.localAPIEndpoint = baseInitConfig.localAPIEndpoint) ∧
    (d.strings "api.0.external" = none →
      c.clusterConfiguration.controlPlaneEndpoint =
        baseInitConfig.clusterConfiguration.controlPlaneEndpoint) ∧
    (d.lists "etcd.0.endpoints" = none →
      c.clusterConfiguration.etcd.ext =
        baseInitConfig.clusterConfiguration.etcd.ext) ∧
    (token = "" → c.bootstrapTokens = baseInitConfig.bootstrapTokens) := by
  obtain ⟨c8, hpre, ht⟩ := dataSource_ok g nbt d token c st hok
  obtain ⟨c4, st4, hp4, hc8, hst8⟩ := prePipeline_ok g d c8 st hpre
  obtain ⟨c2, st2, hp2, hrt⟩ := pipe4_ok g d c4 st4 hp4
  obtain ⟨c1, hap, hnw⟩ := pipe2_ok g d c2 st2 hp2
  obtain ⟨a1, a2, a3, a4, a5, a6, a7, a8, a9⟩ :=
    apiStep_frame g d baseInitConfig c1 hap
  obtain ⟨n1, n2, n3, n4, n5, n6, n7, n8, n9, n10⟩ :=
    networkStep_frame g d c1 c2 g.defKubeletSettings st2 hnw
  obtain ⟨i1, i2, i3, i4, i5, i6, i7, i8, i9⟩ := imagesStep_frame d c2
  obtain ⟨r1, r2, r3, r4, r5, r6, r7, r8⟩ :=
    runtimeStep_frame g d (imagesStep d c2) c4 st2 st4 hrt
  obtain ⟨cl1, cl2, cl3, cl4, cl5, cl6, cl7, cl8, cl9, cl10⟩ := cloudStep_frame d c4 st4
  obtain ⟨cn1, cn2, cn3, cn4⟩ :=
    cniStep_frame d (cloudStep d c4 st4).1 (cloudStep d c4 st4).2
  obtain ⟨v1, v2, v3, v4, v5, v6, v7, v8, v9, v10⟩ :=
    versionStep_frame d (cniStep d (cloudStep d c4 st4).1 (cloudStep d c4 st4).2).1
  obtain ⟨e1, e2, e3, e4, e5, e6, e7, e8, e9, e10, e11⟩ :=
    etcdStep_frame d (versionStep d
      (cniStep d (cloudStep d c4 st4).1 (cloudStep d c4 st4).2).1)
  obtain ⟨tk1, tk2, tk3⟩ := tokenStep_frame nbt token c8 c ht
  refine ⟨?_, ?_, ?_, ?_, ?_, ?_, ?_, ?_, ?_, ?_, ?_⟩
  · -- imageRepository: images block present, kube_repo path absent
    intro hbl habs
    have hrepo : (imagesStep d c2).clusterConfiguration.imageRepository = "" := by
      rw [imagesStep_repo d c2 hbl]
      simp [getS, habs]
    rw [tk1, hc8, e5, v5]
    rw [show (cniStep d (cloudStep d c4 st4).1
      (cloudStep d c4 st4).2).1.clusterConfiguration.imageRepository =
      (cloudStep d c4 st4).1.clusterConfiguration.imageRepository from by rw [cn1]]
    rw [cl4, r3, hrepo]
    rfl
  · -- imageRepository: images block absent
    intro hbl
    rw [tk1, hc8, e5, v5]
    rw [show (cniStep d (cloudStep d c4 st4).1
      (cloudStep d c4 st4).2).1.clusterConfiguration.imageRepository =
      (cloudStep d c4 st4).1.clusterConfiguration.imageRepository from by rw [cn1]]
    rw [cl4, r3, imagesStep_id d c2 hbl, n4, a2]
  · -- dnsDomain
    intro habs
    have hget : getOkS d "network.0.dns.0.domain" = none := by simp [getOkS, habs]
    rw [tk1, hc8, e4, v4]
    rw [show (cniStep d (cloudStep d c4 st4).1
      (cloudStep d c4 st4).2).1.clusterConfiguration.networking =
      (cloudStep d c4 st4).1.clusterConfiguration.networking from by rw [cn1]]
    rw [cl3, r2, i4]
    rw [networkStep_pres_dnsDomain g d c1 c2 g.defKubeletSettings st2 hnw hget, a1]
  · -- podSubnet
    intro habs
    have hget : getOkS d "network.0.pods" = none := by simp [getOkS, habs]
    rw [tk1, hc8, e4, v4]
    rw [show (cniStep d (cloudStep d c4 st4).1
      (cloudStep d c4 st4).2).1.clusterConfiguration.networking =
      (cloudStep d c4 st4).1.clusterConfiguration.networking from by rw [cn1]]
    rw [cl3, r2, i4]
    rw [networkStep_pres_podSubnet g d c1 c2 g.defKubeletSettings st2 hnw hget, a1]
  · -- serviceSubnet
    intro habs
    have hget : getOkS d "network.0.services" = none := by simp [getOkS, habs]
    rw [tk1, hc8, e4, v4]
    rw [show (cniStep d (cloudStep d c4 st4).1
      (cloudStep d c4 st4).2).1.clusterConfiguration.networking =
      (cloudStep d c4 st4).1.clusterConfiguration.networking from by rw [cn1]]
    rw [cl3, r2, i4]
    rw [networkStep_pres_serviceSubnet g d c1 c2 g.defKubeletSettings st2 hnw hget, a1]
  · -- kubernetesVersion
    intro habs
    have hget : getOkS d "version" = none := by simp [getOkS, habs]
    rw [tk1, hc8, e7, versionStep_id d _ hget]
    rw [show (cniStep d (cloudStep d c4 st4).1
      (cloudStep d c4 st4).2).1.clusterConfiguration.kubernetesVersion =
      (cloudStep d c4 st4).1.clusterConfiguration.kubernetesVersion from by rw [cn1]]
    rw [cl6, r5, i5, n6, a4]
  · -- criSocket
    intro habs
    have hget : getOkS d "runtime.0.engine" = none := by simp [getOkS, habs]
    rw [tk3, hc8, e10, v9, cn3, cl9]
    rw [runtimeStep_pres_criSocket g d (imagesStep d c2) c4 st2 st4 hrt hget]
    rw [show (imagesStep d c2).nodeRegistration.criSocket =
      c2.nodeRegistration.criSocket from by rw [i8]]
    rw [n9]
    rw [show c1.nodeRegistration.criSocket =
      baseInitConfig.nodeRegistration.criSocket from by rw [a8]]
  · -- localAPIEndpoint
    intro habs
    have hget : getOkS d "api.0.internal" = none := by simp [getOkS, habs]
    rw [tk2, hc8, e9, v8, cn2, cl8, r7, i7, n8]
    exact apiStep_pres_localAPI g d baseInitConfig c1 hget hap
  · -- controlPlaneEndpoint
    intro habs
    have hget : getOkS d "api.0.external" = none := by simp [getOkS, habs]
    rw [tk1, hc8, e8, v7]
    rw [show (cniStep d (cloudStep d c4 st4).1
      (cloudStep d c4 st4).2).1.clusterConfiguration.controlPlaneEndpoint =
      (cloudStep d c4 st4).1.clusterConfiguration.controlPlaneEndpoint from by rw [cn1]]
    rw [cl7, r6, i6, n7]
    exact apiStep_pres_cpe g d baseInitConfig c1 hget hap
  · -- external etcd endpoints
    intro habs
    have hget : getOkL d "etcd.0.endpoints" = none := by simp [getOkL, habs]
    have hc2etcd : c2.clusterConfiguration.etcd = Etcd.mk none none := by
      rw [n5, a3]
      rfl
    have hAext : (imagesStep d c2).clusterConfiguration.etcd.ext = none :=
      imagesStep_ext_none d c2 (by rw [hc2etcd])
    rw [tk1, hc8, etcdStep_ext_pres d _ hget, v6]
    rw [show (cniStep d (cloudStep d c4 st4).1
      (cloudStep d c4 st4).2).1.clusterConfiguration.etcd.ext =
      (cloudStep d c4 st4).1.clusterConfiguration.etcd.ext from by rw [cn1]]
    rw [cl5, r4, hAext]
    rfl
  · -- bootstrap tokens
    intro htok
    subst htok
    rw [tokenStep_empty nbt c8] at ht
    injection ht with ht
    rw [← ht]
    rw [prePipeline_tokens g d c8 st hpre]
    rfl

end KubeadmInit

namespace KubeadmInit

theorem C6_absent_paths_preserve_base_witness :
    dataSourceToInitConfig gEx nbt0 dC6w "" = .ok (baseInitConfig, []) ∧
    baseInitConfig.clusterConfiguration.imageRepository =
      baseInitConfig.clusterConfiguration.imageRepository ∧
    baseInitConfig.clusterConfiguration.networking.dnsDomain =
      baseInitConfig.clusterConfiguration.networking.dnsDomain := by
  have hok : dataSourceToInitConfig gEx nbt0 dC6w "" = .ok (baseInitConfig, []) := rfl
  have h := C6_absent_paths_preserve_base gEx nbt0 dC6w "" baseInitConfig [] hok
  exact ⟨hok, h.1 (by decide) (by decide), h.2.2.1 (by decide)⟩

end KubeadmInit
